import Mathlib

/-!
Shallow embedding of the sparse-voxel-octree (SVO) navigation core of the
Gunfire3DNavigation plugin, together with theorems settling the frozen claims.

Conventions of the embedding:
* C++ unsigned integers become `Nat`, with explicit `% 2^w` (or a `< 2^w`
  hypothesis) where truncation or wraparound matters.
* C++ `float`/`FVector` values become `ℚ`/`ℚ × ℚ × ℚ` wherever a claim depends
  only on exact arithmetic and comparisons (never on rounding).
* Bit-packed structs (`FSvoNodeLinkBase`) are carried as their packed `Nat`
  value; the bit-field accessors are the corresponding `/ %` extractions.
* The C++ `union` in `FSvoNode` (`Voxels` overlaid with
  `{NodeIsTile, NodeState}`) is modelled by independent fields, which
  over-approximates the set of representable nodes; a leaf node's state being
  *derived* from `Voxels` (never read from storage) is then expressible.
-/

/-! ### Constants from SparseVoxelOctreeCommon.h -/

def SVO_LEAF_LAYER : Nat := 0

def SVO_MAX_LAYERS : Nat := 6

def SVO_MAX_NODES : Nat := 262144

def SVO_VOXELS_PER_LEAF : Nat := 64

def SVO_VOXEL_GRID_EXTENT : Nat := 4

def SVO_OCTANT_GRID_EXTENT : Nat := 2

def SVO_NO_VOXEL : Nat := 0x7F

def SVO_INVALID_ID : Nat := 0xFFFFFFFF

def SVO_INVALID_NODELINK : Nat := 0xFFFFFFFFFFFFFFFF

def SVO_NODE_USERDATA_MASK : Nat := 0xF0000000

/-- `ESvoNeighbor` from SparseVoxelOctreeCommon.h: the six face directions plus
the `Self` helper value. -/
inductive ESvoNeighbor
  | Front
  | Right
  | Top
  | Back
  | Left
  | Bottom
  | Self
deriving DecidableEq, Repr, Fintype

/-- The numeric value of an `ESvoNeighbor` (its declaration order), used as the
row/column index into the lookup tables, exactly as the C++ casts to `uint8`. -/
def ESvoNeighbor.idx : ESvoNeighbor → Nat
  | .Front => 0
  | .Right => 1
  | .Top => 2
  | .Back => 3
  | .Left => 4
  | .Bottom => 5
  | .Self => 6

/-- `FSvoUtils::GetOppositeNeighbor`: `(n + 3) % 6`. -/
def getOppositeNeighbor : ESvoNeighbor → ESvoNeighbor
  | .Front => .Back
  | .Right => .Left
  | .Top => .Bottom
  | .Back => .Front
  | .Left => .Right
  | .Bottom => .Top
  | .Self => .Self

/-- `FSvoUtils::GetNeighborDirection` (the `DirectionLUT` table). -/
def getNeighborDirection : ESvoNeighbor → Int × Int × Int
  | .Front => (1, 0, 0)
  | .Right => (0, 1, 0)
  | .Top => (0, 0, 1)
  | .Back => (-1, 0, 0)
  | .Left => (0, -1, 0)
  | .Bottom => (0, 0, -1)
  | .Self => (0, 0, 0)

/-- `ENodeState` from SparseVoxelOctreeNode.h. -/
inductive ENodeState
  | Open
  | PartiallyBlocked
  | Blocked
deriving DecidableEq, Repr, Fintype

/-! ### FSvoNodeLink (SparseVoxelOctreeNode.h)

The C++ `FSvoNodeLinkBase` is a `uint32` bit-packed as
`LayerIdx:3, NodeIdx:18, VoxelIdx:7, UserData:4` (low to high bits);
`FSvoNodeLink` prepends a 32-bit `TileID`. We carry the packed 32-bit value
`NodeID` and define the bit-field accessors by division and remainder. -/

structure FSvoNodeLink where
  TileID : Nat
  NodeID : Nat
deriving DecidableEq, Repr

/-- A link is well-formed when both halves fit in 32 bits. -/
def FSvoNodeLink.Wf (l : FSvoNodeLink) : Prop :=
  l.TileID < 2 ^ 32 ∧ l.NodeID < 2 ^ 32

/-- Bit field `LayerIdx : 3` (bits 0-2 of `NodeID`). -/
def FSvoNodeLink.LayerIdx (l : FSvoNodeLink) : Nat := l.NodeID % 8

/-- Bit field `NodeIdx : 18` (bits 3-20 of `NodeID`). -/
def FSvoNodeLink.NodeIdx (l : FSvoNodeLink) : Nat := l.NodeID / 8 % 2 ^ 18

/-- Bit field `VoxelIdx : 7` (bits 21-27 of `NodeID`). -/
def FSvoNodeLink.VoxelIdx (l : FSvoNodeLink) : Nat := l.NodeID / 2 ^ 21 % 2 ^ 7

/-- Bit field `UserData : 4` (bits 28-31 of `NodeID`). -/
def FSvoNodeLink.UserData (l : FSvoNodeLink) : Nat := l.NodeID / 2 ^ 28 % 2 ^ 4

/-- Packing the four bit fields into a `NodeID` value (each field truncated to
its width, as a C++ bit-field assignment does). -/
def packNodeID (layerIdx nodeIdx voxelIdx userData : Nat) : Nat :=
  layerIdx % 8 + 8 * (nodeIdx % 2 ^ 18) + 2 ^ 21 * (voxelIdx % 2 ^ 7)
    + 2 ^ 28 * (userData % 2 ^ 4)

/-- `FSvoNodeLink::GetID`:
`((uint64)TileID << 32) | (NodeID | SVO_NODE_USERDATA_MASK)`. -/
def FSvoNodeLink.GetID (l : FSvoNodeLink) : Nat :=
  (l.TileID <<< 32) ||| (l.NodeID ||| SVO_NODE_USERDATA_MASK)

/-- `FSvoNodeLink::SetID`: `TileID = (ID >> 32); NodeID = (uint32)ID`. -/
def FSvoNodeLink.SetID (id : Nat) : FSvoNodeLink :=
  { TileID := id >>> 32 % 2 ^ 32, NodeID := id % 2 ^ 32 }

/-- `FSvoNodeLink::operator==`: compares `GetID()` of both sides. -/
def FSvoNodeLink.linkEq (a b : FSvoNodeLink) : Bool :=
  a.GetID == b.GetID

/-- `FSvoNodeLinkBase::IsValid`, on the packed fields. -/
def FSvoNodeLink.IsValidLink (l : FSvoNodeLink) : Bool :=
  decide (l.LayerIdx < SVO_MAX_LAYERS) && decide (l.NodeIdx < SVO_MAX_NODES) &&
    (decide (l.VoxelIdx < SVO_VOXELS_PER_LEAF) || decide (l.VoxelIdx = SVO_NO_VOXEL))

/-! Helper lemmas for `GetID`: `n ||| 0xF0000000` on a 32-bit value replaces the
top nibble (the `UserData` bits) with all-ones. -/

theorem pow_mul_lor_distrib (i a b : Nat) :
    2 ^ i * a ||| 2 ^ i * b = 2 ^ i * (a ||| b) := by
  apply Nat.eq_of_testBit_eq
  intro j
  simp [Nat.testBit_or, Nat.testBit_mul_pow_two, Bool.and_or_distrib_left]

theorem lor_fifteen_of_lt (q : Nat) (h : q < 16) : q ||| 15 = 15 := by
  revert h
  revert q
  decide

theorem lor_userdata_mask (n : Nat) (h : n < 2 ^ 32) :
    n ||| SVO_NODE_USERDATA_MASK = 2 ^ 28 * 15 + n % 2 ^ 28 := by
  have hmask : SVO_NODE_USERDATA_MASK = 2 ^ 28 * 15 := by decide
  have hq : n / 2 ^ 28 < 16 := by omega
  have hr : n % 2 ^ 28 < 2 ^ 28 := Nat.mod_lt _ (by norm_num)
  have hsplit : n = 2 ^ 28 * (n / 2 ^ 28) + n % 2 ^ 28 := (Nat.div_add_mod n _).symm
  calc n ||| SVO_NODE_USERDATA_MASK
      = (2 ^ 28 * (n / 2 ^ 28) ||| n % 2 ^ 28) ||| 2 ^ 28 * 15 := by
        rw [hmask, ← Nat.mul_add_lt_is_or hr, ← hsplit]
    _ = (2 ^ 28 * (n / 2 ^ 28) ||| 2 ^ 28 * 15) ||| n % 2 ^ 28 := by
        rw [Nat.or_assoc, Nat.or_comm (n % 2 ^ 28), ← Nat.or_assoc]
    _ = 2 ^ 28 * 15 ||| n % 2 ^ 28 := by
        rw [pow_mul_lor_distrib, lor_fifteen_of_lt _ hq]
    _ = 2 ^ 28 * 15 + n % 2 ^ 28 := by
        rw [Nat.mul_add_lt_is_or hr]

theorem getID_arith (l : FSvoNodeLink) (h : l.Wf) :
    l.GetID = 2 ^ 32 * l.TileID + (2 ^ 28 * 15 + l.NodeID % 2 ^ 28) := by
  obtain ⟨ht, hn⟩ := h
  have hlow : l.NodeID ||| SVO_NODE_USERDATA_MASK < 2 ^ 32 :=
    Nat.or_lt_two_pow hn (by decide)
  unfold FSvoNodeLink.GetID
  rw [Nat.shiftLeft_eq, Nat.mul_comm, ← Nat.mul_add_lt_is_or hlow,
    lor_userdata_mask _ hn]

/-- C7: `SetID (GetID l)` preserves the `(tileId, layer, nodeIdx, voxelIdx)`
fields and forces the 4 `userData` bits to `0xF`; consequently two links that
agree on those four fields (differing at most in `userData`) have equal 64-bit
IDs and compare equal under `operator==`. -/
theorem svoNodeLink_getID_setID_C7 (l m : FSvoNodeLink) (hl : l.Wf) (hm : m.Wf)
    (hTile : m.TileID = l.TileID) (hLayer : m.LayerIdx = l.LayerIdx)
    (hNode : m.NodeIdx = l.NodeIdx) (hVoxel : m.VoxelIdx = l.VoxelIdx) :
    (FSvoNodeLink.SetID l.GetID).TileID = l.TileID ∧
    (FSvoNodeLink.SetID l.GetID).LayerIdx = l.LayerIdx ∧
    (FSvoNodeLink.SetID l.GetID).NodeIdx = l.NodeIdx ∧
    (FSvoNodeLink.SetID l.GetID).VoxelIdx = l.VoxelIdx ∧
    (FSvoNodeLink.SetID l.GetID).UserData = 0xF ∧
    m.GetID = l.GetID ∧ m.linkEq l = true := by
  have hlId := getID_arith l hl
  have hmId := getID_arith m hm
  have hmod : m.NodeID % 2 ^ 28 = l.NodeID % 2 ^ 28 := by
    have h1 : m.NodeID % 8 = l.NodeID % 8 := hLayer
    have h2 : m.NodeID / 8 % 2 ^ 18 = l.NodeID / 8 % 2 ^ 18 := hNode
    have h3 : m.NodeID / 2 ^ 21 % 2 ^ 7 = l.NodeID / 2 ^ 21 % 2 ^ 7 := hVoxel
    omega
  have hEq : m.GetID = l.GetID := by rw [hlId, hmId, hTile, hmod]
  refine ⟨?_, ?_, ?_, ?_, ?_, hEq, ?_⟩
  · show l.GetID >>> 32 % 2 ^ 32 = l.TileID
    rw [Nat.shiftRight_eq_div_pow, hlId]
    obtain ⟨ht, hn⟩ := hl
    omega
  · show l.GetID % 2 ^ 32 % 8 = l.NodeID % 8
    rw [hlId]; omega
  · show l.GetID % 2 ^ 32 / 8 % 2 ^ 18 = l.NodeID / 8 % 2 ^ 18
    rw [hlId]; omega
  · show l.GetID % 2 ^ 32 / 2 ^ 21 % 2 ^ 7 = l.NodeID / 2 ^ 21 % 2 ^ 7
    rw [hlId]; omega
  · show l.GetID % 2 ^ 32 / 2 ^ 28 % 2 ^ 4 = 0xF
    rw [hlId]; omega
  · simp [FSvoNodeLink.linkEq, hEq]

/-- Witness for C7 at a concrete link (TileID 7, layer 2, nodeIdx 5, voxelIdx
0x7F, userData 3 versus 9). -/
theorem svoNodeLink_getID_setID_C7_witness :
    (FSvoNodeLink.SetID (FSvoNodeLink.GetID ⟨7, packNodeID 2 5 0x7F 3⟩)).UserData = 0xF ∧
    (FSvoNodeLink.linkEq ⟨7, packNodeID 2 5 0x7F 9⟩ ⟨7, packNodeID 2 5 0x7F 3⟩) = true := by
  have h := svoNodeLink_getID_setID_C7 ⟨7, packNodeID 2 5 0x7F 3⟩
    ⟨7, packNodeID 2 5 0x7F 9⟩ (by constructor <;> decide) (by constructor <;> decide)
    (by decide) (by decide) (by decide) (by decide)
  exact ⟨h.2.2.2.2.1, h.2.2.2.2.2.2⟩

/-! ### FSvoNode (SparseVoxelOctreeNode.h) -/

/-- `FSvoNode`. The C++ node stores `SelfLink`, six neighbor links, padding and
a union of `Voxels : uint64` (leaf nodes) with `{NodeIsTile, NodeState}`
(non-leaf nodes). The union is modelled by independent fields so that reading
one while the other was stored is expressible. -/
structure FSvoNode where
  SelfLink : FSvoNodeLink
  NeighborLinks : ESvoNeighbor → Nat
  Voxels : Nat
  NodeIsTile : Bool
  NodeState : ENodeState
deriving DecidableEq

/-- `FSvoNode::IsLeafNode`: `SelfLink.LayerIdx == SVO_LEAF_LAYER`. -/
def FSvoNode.IsLeafNode (n : FSvoNode) : Bool :=
  n.SelfLink.LayerIdx == SVO_LEAF_LAYER

/-- `FSvoNode::GetNodeState` (SparseVoxelOctreeNode.h, lines 282-304): a leaf
node's state is computed from `Voxels` (`0 → Open`, all-ones `→ Blocked`, else
`PartiallyBlocked`); a non-leaf node returns the stored `NodeState`. -/
def FSvoNode.GetNodeState (n : FSvoNode) : ENodeState :=
  if n.IsLeafNode then
    if n.Voxels = 0 then ENodeState.Open
    else if n.Voxels = 0xFFFFFFFFFFFFFFFF then ENodeState.Blocked
    else ENodeState.PartiallyBlocked
  else n.NodeState

/-- The spec's `nodeStateDerived`: `0 → Open`, all-ones `→ Blocked`, else
`PartiallyBlocked` (spec §8, quantified invariant 3). Stated from the spec's
words for comparison with `FSvoNode.GetNodeState`. -/
def nodeStateDerived (voxels : Nat) : ENodeState :=
  if voxels = 0 then ENodeState.Open
  else if voxels = 0xFFFFFFFFFFFFFFFF then ENodeState.Blocked
  else ENodeState.PartiallyBlocked

/-- `FSvoNode::IsVoxelBlocked`: `(Voxels & (1 << VoxelIdx)) != 0`. -/
def FSvoNode.IsVoxelBlocked (n : FSvoNode) (voxelIdx : Nat) : Bool :=
  n.Voxels &&& (1 <<< voxelIdx) != 0

/-- C8: for every leaf node the state returned by `GetNodeState` is computed
from the 64-bit voxel field — it equals `nodeStateDerived Voxels`, and it is
unchanged under any stored `NodeState`/`NodeIsTile` (never read from
storage). -/
theorem svoNode_leafState_C8 (n : FSvoNode) (h : n.IsLeafNode = true) :
    n.GetNodeState = nodeStateDerived n.Voxels ∧
    ∀ s : ENodeState, ∀ t : Bool,
      ({ n with NodeState := s, NodeIsTile := t } : FSvoNode).GetNodeState
        = nodeStateDerived n.Voxels := by
  constructor
  · simp [FSvoNode.GetNodeState, nodeStateDerived, h]
  · intro s t
    have h' : ({ n with NodeState := s, NodeIsTile := t } : FSvoNode).IsLeafNode = true := h
    simp [FSvoNode.GetNodeState, nodeStateDerived, h']

/-- Witness for C8 at a concrete partially-blocked leaf node. -/
theorem svoNode_leafState_C8_witness :
    (FSvoNode.GetNodeState
      ⟨⟨0, packNodeID 0 0 SVO_NO_VOXEL 0⟩, fun _ => SVO_INVALID_ID, 5, true,
        ENodeState.Blocked⟩) = nodeStateDerived 5 := by
  exact (svoNode_leafState_C8 _ (by decide)).1

/-! ### Morton utilities (SparseVoxelOctreeUtils.h and its .cpp) -/

def MORTON_X_MASK : Nat := 0x09249249

def MORTON_Y_MASK : Nat := 0x12492492

def MORTON_Z_MASK : Nat := 0x24924924

def MORTON_MINUS_X : Nat := 0x1

def MORTON_MINUS_Y : Nat := 0x2

def MORTON_MINUS_Z : Nat := 0x4

/-- Spread the low `k` bits of `x` so that bit `i` lands at bit `3*i`
(libmorton's 10-bit 3D encode, one coordinate). -/
def spread3 : Nat → Nat → Nat
  | 0, _ => 0
  | k + 1, x => x % 2 + 8 * spread3 k (x / 2)

/-- `libmorton::morton3D_32_encode`: x in the least-significant interleave
position, then y, then z. -/
def morton3D_32_encode (x y z : Nat) : Nat :=
  spread3 10 x ||| (spread3 10 y <<< 1) ||| (spread3 10 z <<< 2)

/-- Inverse of `spread3`: collect every third bit. -/
def compact3 : Nat → Nat → Nat
  | 0, _ => 0
  | k + 1, c => c % 2 + 2 * compact3 k (c / 8)

/-- `libmorton::morton3D_32_decode`. -/
def morton3D_32_decode (c : Nat) : Nat × Nat × Nat :=
  (compact3 10 c, compact3 10 (c >>> 1), compact3 10 (c >>> 2))

/-- `FSvoUtils::CoordToMorton` (non-negative coords assumed valid). -/
def coordToMorton (c : Nat × Nat × Nat) : Nat :=
  morton3D_32_encode c.1 c.2.1 c.2.2

/-- `FSvoUtils::MortonNeighborLUT` (SparseVoxelOctreeUtils.cpp): per direction
`(axis mask, offset code, edge sentinel)`. The `Self` row does not exist in the
8-row C++ array and is never indexed; it is mapped to zeros here. -/
def MortonNeighborLUT : ESvoNeighbor → Nat × Nat × Nat
  | .Front => (MORTON_X_MASK, MORTON_X_MASK, MORTON_X_MASK)
  | .Right => (MORTON_Y_MASK, MORTON_Y_MASK, MORTON_Y_MASK)
  | .Top => (MORTON_Z_MASK, MORTON_Z_MASK, MORTON_Y_MASK)
  | .Back => (MORTON_X_MASK, MORTON_MINUS_X, 0)
  | .Left => (MORTON_Y_MASK, MORTON_MINUS_Y, 0)
  | .Bottom => (MORTON_Z_MASK, MORTON_MINUS_Z, 0)
  | .Self => (0, 0, 0)

/-- 32-bit unsigned subtraction (C++ `uint32` wraparound). -/
def sub32 (a b : Nat) : Nat := (a + 2 ^ 32 - b % 2 ^ 32) % 2 ^ 32

/-- `FSvoUtils::MortonNeighbor` (SparseVoxelOctreeUtils.h, lines 55-67):
`AxisValue == AxisEdge ? Code : (Code & ~AxisMask) | ((AxisValue - Offset) & AxisMask)`.
`~AxisMask` is the 32-bit complement; the subtraction wraps as `uint32`. -/
def mortonNeighbor (code : Nat) (neighbor : ESvoNeighbor) : Nat :=
  let axisMask := (MortonNeighborLUT neighbor).1
  let offset := (MortonNeighborLUT neighbor).2.1
  let axisEdge := (MortonNeighborLUT neighbor).2.2
  let axisValue := code &&& axisMask
  if axisValue = axisEdge then code
  else (code &&& (0xFFFFFFFF ^^^ axisMask)) ||| (sub32 axisValue offset &&& axisMask)

/-- C9 evaluation: at the +Z grid edge (z = 1023) the wrap guard never fires —
the LUT's `Top` row uses `MORTON_Y_MASK` as its edge sentinel, which a
Z-axis-masked value can never equal — so `MortonNeighbor` wraps z to 0 instead
of returning the code unchanged. On the -Z edge the guard works as claimed. -/
theorem mortonNeighbor_C9_top_edge :
    coordToMorton (0, 0, 1023) = MORTON_Z_MASK ∧
    mortonNeighbor MORTON_Z_MASK ESvoNeighbor.Top = coordToMorton (0, 0, 0) ∧
    mortonNeighbor MORTON_Z_MASK ESvoNeighbor.Top ≠ MORTON_Z_MASK ∧
    mortonNeighbor (coordToMorton (0, 0, 0)) ESvoNeighbor.Bottom
      = coordToMorton (0, 0, 0) := by
  refine ⟨by decide, by decide, by decide, by decide⟩

/-! ### FSvoTile (SparseVoxelOctreeTile.h / .cpp) -/

/-- `FSvoTile::FSvoLayer`. -/
structure FSvoLayer where
  StartNode : Nat
  NumNodes : Nat
  MaxNodes : Nat
deriving DecidableEq, Repr

/-- `FSvoTile`: root node info, tile coordinate, node pool and layer table. -/
structure FSvoTile where
  NodeInfo : FSvoNode
  Coord : Int × Int × Int
  NodePool : List FSvoNode
  Layers : List FSvoLayer
deriving DecidableEq

/-- `FSvoNode::SetNodeState` (stores the state; the C++ `ensure(!IsLeafNode())`
is a debug assertion, the store happens regardless). -/
def FSvoNode.SetNodeState (n : FSvoNode) (s : ENodeState) : FSvoNode :=
  { n with NodeState := s }

/-- `FSvoTile::Assume` (SparseVoxelOctreeTile.cpp, lines 299-325): release the
destination's memory, copy `NodeInfo` and `Coord` from the source, move the
source's `NodePool` and `Layers` over, and — when the moved pool is empty —
force the root node state to `Open`. -/
def FSvoTile.Assume (dest source : FSvoTile) : FSvoTile :=
  let d : FSvoTile :=
    { dest with
      NodeInfo := source.NodeInfo
      Coord := source.Coord
      NodePool := source.NodePool
      Layers := source.Layers }
  if d.NodePool.length = 0 then
    { d with NodeInfo := d.NodeInfo.SetNodeState ENodeState.Open }
  else d

/-- C10: a tile assumed from a source with an empty node pool gets root state
`Open` regardless of the source root's stored state; a non-empty pool keeps the
copied root node (state included) unchanged. -/
theorem svoTile_assume_C10 (dest source : FSvoTile) :
    (dest.Assume source).NodeInfo =
      if source.NodePool.length = 0 then
        { source.NodeInfo with NodeState := ENodeState.Open }
      else source.NodeInfo := by
  unfold FSvoTile.Assume FSvoNode.SetNodeState
  by_cases h : source.NodePool.length = 0 <;> simp [h]

/-! ### FNavSvoGeneratorConfig (NavSvoGeneratorConfig.cpp) -/

/-- The generator-config fields the gather/padding claim is about. `float`
inputs are carried as `ℚ`; `FMath::CeilToInt` is `⌈·⌉`. -/
structure FNavSvoGeneratorConfig where
  AgentHalfHeight : Int
  AgentRadius : Int
  BoundsPadding : ℚ × ℚ × ℚ
deriving DecidableEq, Repr

/-- `FNavSvoGeneratorConfig::FNavSvoGeneratorConfig` (NavSvoGeneratorConfig.cpp,
lines 104-142), restricted to the agent-size fields: with
`AgentHalfHeightFloat = AgentHeight * 0.5` and `AgentRadiusFloat = AgentRadius`
the source assigns
`AgentHalfHeight = CeilToInt(AgentRadiusFloat / VoxelSize)` and
`AgentRadius = CeilToInt(AgentHalfHeightFloat / VoxelSize)`, then
`XYPadding = VoxelSize * AgentRadius`, `ZPadding = VoxelSize * AgentHalfHeight`,
`BoundsPadding = (XYPadding, XYPadding, ZPadding)`. -/
def mkGeneratorConfig (voxelSize agentRadiusIn agentHeightIn : ℚ) :
    FNavSvoGeneratorConfig :=
  let agentHalfHeightFloat := agentHeightIn * (1 / 2)
  let agentRadiusFloat := agentRadiusIn
  let agentHalfHeight : Int := ⌈agentRadiusFloat / voxelSize⌉
  let agentRadius : Int := ⌈agentHalfHeightFloat / voxelSize⌉
  let xyPadding := voxelSize * (agentRadius : ℚ)
  let zPadding := voxelSize * (agentHalfHeight : ℚ)
  { AgentHalfHeight := agentHalfHeight
    AgentRadius := agentRadius
    BoundsPadding := (xyPadding, xyPadding, zPadding) }

/-- C3 evaluation: with voxel size 1, agent radius 2 and agent height 6 (half
height 3) the constructor stores `AgentRadius = 3 = ceil(halfHeight/V)` and
`AgentHalfHeight = 2 = ceil(radius/V)` — the two fields are swapped — so the
gather box is expanded by 3 in X and Y and by 2 in Z, where the claim requires
`(2, 2, 3)`. -/
theorem generatorConfig_C3_swapped :
    (mkGeneratorConfig 1 2 6).AgentRadius = 3 ∧
    (mkGeneratorConfig 1 2 6).AgentHalfHeight = 2 ∧
    (mkGeneratorConfig 1 2 6).BoundsPadding = (3, 3, 2) ∧
    ⌈(2 : ℚ) / 1⌉ = 2 ∧ ⌈(6 : ℚ) * (1 / 2) / 1⌉ = 3 := by
  refine ⟨?_, ?_, ?_, ?_, ?_⟩ <;> norm_num [mkGeneratorConfig]

/-! ### The A* open-neighbor gate (NavSvoQuery.cpp, FNavSvoQuery::OpenNeighbor) -/

/-- `ENavSvoQueryTieBreaker` (NavSvoQuery.h). -/
inductive ENavSvoQueryTieBreaker
  | Nearest
  | Furthest
deriving DecidableEq, Repr

/-- The decision `bIsNeighborCheaper` of `FNavSvoQuery::OpenNeighbor`
(NavSvoQuery.cpp, lines 695-724) for a neighbor that is already on the open
list: `ExistingNeighborCost` is the stored `FCost`, `NeighborTotalCost` the
newly computed `fCost`, `NeighborTraversalCost` the new `gCost` and
`existingGCost` the stored `GCost`. `true` means the node is updated in the
pool and repositioned in the heap; `false` means it is skipped. -/
def openNeighborKeepsNew (tieBreaker : ENavSvoQueryTieBreaker)
    (existingFCost existingGCost newFCost newGCost : ℚ) : Bool :=
  if existingFCost = newFCost then
    match tieBreaker with
    | ENavSvoQueryTieBreaker.Nearest => decide (newGCost < existingGCost)
    | ENavSvoQueryTieBreaker.Furthest => decide (newGCost > existingGCost)
  else if existingFCost < newFCost then true
  else false

/-- C1 evaluation: the strict-inequality cases of the open-neighbor gate are
inverted. With the new `fCost` strictly lower (better) than the stored one the
code skips the update (`false`), and with the stored `fCost` strictly lower the
code updates and reopens the node (`true`) — the opposite of the claim and of
the source's own comment. The tie cases behave as claimed. -/
theorem openNeighbor_C1_inverted :
    openNeighborKeepsNew ENavSvoQueryTieBreaker.Nearest 2 0 1 0 = false ∧
    openNeighborKeepsNew ENavSvoQueryTieBreaker.Nearest 1 0 2 0 = true ∧
    openNeighborKeepsNew ENavSvoQueryTieBreaker.Nearest 1 5 1 3 = true ∧
    openNeighborKeepsNew ENavSvoQueryTieBreaker.Nearest 1 5 1 7 = false ∧
    openNeighborKeepsNew ENavSvoQueryTieBreaker.Furthest 1 5 1 7 = true := by
  refine ⟨?_, ?_, ?_, ?_, ?_⟩ <;> norm_num [openNeighborKeepsNew]

/-! ### Location arithmetic and GetLinkForLocation (SparseVoxelOctree.cpp)

`FVector` becomes `ℚ × ℚ × ℚ` and `FMath::FloorToFloat`/`FloorToInt` become
exact floors; the claims exercised here depend only on exact arithmetic.
`FSvoTile::CalcTileID` (a hash of the tile coord) is modelled by identifying a
tile by its coordinate, i.e. the hash is taken injective. An invalid
`FSvoNodeLink` is `none`. -/

/-- Exact rational addition, written through `Rat.divInt` so that it evaluates
by kernel reduction (`Rat.add` is `@[irreducible]`); `qadd_eq_add` certifies it
is ℚ's addition. -/
def qadd (a b : ℚ) : ℚ := Rat.divInt (a.num * b.den + b.num * a.den) (a.den * b.den)

/-- Exact rational subtraction; see `qadd`. -/
def qsub (a b : ℚ) : ℚ := Rat.divInt (a.num * b.den - b.num * a.den) (a.den * b.den)

/-- Exact rational multiplication; see `qadd`. -/
def qmul (a b : ℚ) : ℚ := Rat.divInt (a.num * b.num) (a.den * b.den)

/-- Exact rational division (0 on a zero divisor, as in ℚ); see `qadd`. -/
def qdiv (a b : ℚ) : ℚ := Rat.divInt (a.num * b.den) (a.den * b.num)

theorem qadd_eq_add (a b : ℚ) : qadd a b = a + b := by
  have ha : ((a.den : ℚ)) ≠ 0 := Nat.cast_ne_zero.mpr a.den_nz
  have hb : ((b.den : ℚ)) ≠ 0 := Nat.cast_ne_zero.mpr b.den_nz
  conv_rhs => rw [← Rat.num_div_den a, ← Rat.num_div_den b]
  rw [qadd, Rat.divInt_eq_div]
  push_cast
  field_simp

theorem qsub_eq_sub (a b : ℚ) : qsub a b = a - b := by
  have ha : ((a.den : ℚ)) ≠ 0 := Nat.cast_ne_zero.mpr a.den_nz
  have hb : ((b.den : ℚ)) ≠ 0 := Nat.cast_ne_zero.mpr b.den_nz
  conv_rhs => rw [← Rat.num_div_den a, ← Rat.num_div_den b]
  rw [qsub, Rat.divInt_eq_div]
  push_cast
  field_simp
  ring

theorem qmul_eq_mul (a b : ℚ) : qmul a b = a * b := by
  have ha : ((a.den : ℚ)) ≠ 0 := Nat.cast_ne_zero.mpr a.den_nz
  have hb : ((b.den : ℚ)) ≠ 0 := Nat.cast_ne_zero.mpr b.den_nz
  conv_rhs => rw [← Rat.num_div_den a, ← Rat.num_div_den b]
  rw [qmul, Rat.divInt_eq_div]
  push_cast
  field_simp

theorem qdiv_eq_div (a b : ℚ) : qdiv a b = a / b := by
  by_cases hb0 : b = 0
  · subst hb0
    simp [qdiv, Rat.divInt_eq_div]
  · have ha : ((a.den : ℚ)) ≠ 0 := Nat.cast_ne_zero.mpr a.den_nz
    have hb : ((b.den : ℚ)) ≠ 0 := Nat.cast_ne_zero.mpr b.den_nz
    have hbn : ((b.num : ℚ)) ≠ 0 := by
      exact_mod_cast Rat.num_ne_zero.mpr hb0
    conv_rhs => rw [← Rat.num_div_den a, ← Rat.num_div_den b]
    rw [qdiv, Rat.divInt_eq_div]
    push_cast
    field_simp

/-- `ECellOffset` from SparseVoxelOctreeCommon.h. -/
inductive ECellOffset
  | Center
  | Min
  | Max
deriving DecidableEq, Repr

/-- A 3-vector of rationals (`FVector`). -/
abbrev Vec3 := ℚ × ℚ × ℚ

/-- An `FIntVector`. -/
abbrev IVec3 := Int × Int × Int

/-- A node link in the location-query model: tile coordinate (standing for the
tile id), layer, Morton node index, voxel index (`SVO_NO_VOXEL` = none). -/
structure MLink where
  TileCoord : IVec3
  LayerIdx : Nat
  NodeIdx : Nat
  VoxelIdx : Nat
deriving DecidableEq, Repr

/-- Model node record: whether the pool slot is active, the stored (non-leaf)
state, the leaf voxel bitfield, and the resolved stored neighbor links
(`FSvoNode::GetNeighborLink` composed with the tile-id decode). -/
structure MNode where
  Active : Bool
  State : ENodeState
  Voxels : Nat
  Neighbors : ESvoNeighbor → Option MLink := fun _ => none

/-- Model tile: coordinate, the root node's stored state and neighbor links,
and the node pool as a partial function from `(layer, nodeIdx)`. -/
structure MTile where
  Coord : IVec3
  RootState : ENodeState
  Node : Nat → Nat → Option MNode
  RootNeighbors : ESvoNeighbor → Option MLink := fun _ => none

/-- Model octree: seed location, voxel size, tile layer index (1..5) and the
tile list. -/
structure MOctree where
  Seed : Vec3
  VoxelSize : ℚ
  TileLayerIdx : Nat
  Tiles : List MTile

/-- `FSvoUtils::CalcResolutionForLayer`: `Layer0Resolution = VoxelSize * 4`,
then `* 2^LayerIdx` for higher layers. -/
def calcResolutionForLayer (layerIdx : Nat) (voxelSize : ℚ) : ℚ :=
  let layer0Resolution := qmul voxelSize (SVO_VOXEL_GRID_EXTENT : ℚ)
  if layerIdx = SVO_LEAF_LAYER then layer0Resolution
  else qmul layer0Resolution ((2 ^ layerIdx : ℕ) : ℚ)

/-- `FSvoConfig::GetResolutionForLayer`. -/
def MOctree.resolutionForLayer (oct : MOctree) (layerIdx : Nat) : ℚ :=
  calcResolutionForLayer layerIdx oct.VoxelSize

/-- `FSvoConfig::GetTileResolution`. -/
def MOctree.tileResolution (oct : MOctree) : ℚ :=
  oct.resolutionForLayer oct.TileLayerIdx

/-- `FSvoConfig::GetChildResolutionForLayer`: voxel size below the leaf layer,
otherwise the next layer down. -/
def MOctree.childResolutionForLayer (oct : MOctree) (layerIdx : Nat) : ℚ :=
  if layerIdx = SVO_LEAF_LAYER then oct.VoxelSize
  else oct.resolutionForLayer (layerIdx - 1)

/-- `MLink` mirror of `FSvoNodeLinkBase::IsVoxelNode`. -/
def MLink.IsVoxelNode (l : MLink) : Bool :=
  l.LayerIdx == SVO_LEAF_LAYER && l.VoxelIdx != SVO_NO_VOXEL

/-- `FSvoConfig::GetResolutionForLink`: the voxel size for voxel links, else
the layer resolution. -/
def MOctree.resolutionForLink (oct : MOctree) (l : MLink) : ℚ :=
  if l.IsVoxelNode then oct.VoxelSize else oct.resolutionForLayer l.LayerIdx

/-- `FSvoUtils::LocationToCoord`: floor the seed-relative location first, then
divide by the resolution and floor again (both floors are in the source). -/
def locationToCoord (seed location : Vec3) (resolution : ℚ) : IVec3 :=
  let rel : Vec3 := (qsub location.1 seed.1, qsub location.2.1 seed.2.1,
    qsub location.2.2 seed.2.2)
  let fl : Vec3 := ((Rat.floor rel.1 : ℤ), (Rat.floor rel.2.1 : ℤ), (Rat.floor rel.2.2 : ℤ))
  (Rat.floor (qdiv fl.1 resolution), Rat.floor (qdiv fl.2.1 resolution),
   Rat.floor (qdiv fl.2.2 resolution))

/-- `FSvoUtils::CoordToLocation` with its `ECellOffset`. -/
def coordToLocation (seed : Vec3) (coord : IVec3) (resolution : ℚ)
    (offset : ECellOffset) : Vec3 :=
  let base : Vec3 := (qadd seed.1 (qmul (coord.1 : ℚ) resolution),
    qadd seed.2.1 (qmul (coord.2.1 : ℚ) resolution),
    qadd seed.2.2 (qmul (coord.2.2 : ℚ) resolution))
  match offset with
  | ECellOffset.Min => base
  | ECellOffset.Center =>
      let h := qdiv resolution 2
      (qadd base.1 h, qadd base.2.1 h, qadd base.2.2 h)
  | ECellOffset.Max =>
      (qadd base.1 resolution, qadd base.2.1 resolution, qadd base.2.2 resolution)

/-- `FSvoConfig::TileCoordToLocation` (center offset). -/
def MOctree.tileCoordToLocation (oct : MOctree) (coord : IVec3) : Vec3 :=
  coordToLocation oct.Seed coord oct.tileResolution ECellOffset.Center

/-- `FSvoUtils::MortonToCoord` via the libmorton decode (cast to signed). -/
def mortonToCoord (code : Nat) : IVec3 :=
  let d := morton3D_32_decode code
  ((d.1 : Int), (d.2.1 : Int), (d.2.2 : Int))

/-- `FSvoConfig::MortonToLocation`:
`TileMinLocation + CoordToLocation(MortonToCoord(code), resolution)` — the
seed-relative `CoordToLocation` is applied on top of the absolute tile min,
exactly as the source does. -/
def MOctree.mortonToLocation (oct : MOctree) (tileMinLocation : Vec3) (code : Nat)
    (resolution : ℚ) : Vec3 :=
  let c := coordToLocation oct.Seed (mortonToCoord code) resolution ECellOffset.Center
  (qadd tileMinLocation.1 c.1, qadd tileMinLocation.2.1 c.2.1,
   qadd tileMinLocation.2.2 c.2.2)

/-- `FSvoUtils::GetVoxelCoordFromIndex` (extents 4×4×4). -/
def getVoxelCoordFromIndex (idx : Nat) : IVec3 :=
  ((idx % 4 : Nat), ((idx / 4) % 4 : Nat), (idx / 16 : Nat))

/-- `FSvoConfig::GetVoxelLocation`: first-voxel center of the leaf at
`nodeLocation`, plus the voxel coord times the voxel size. -/
def MOctree.getVoxelLocation (oct : MOctree) (voxelIdx : Nat) (nodeLocation : Vec3) :
    Vec3 :=
  let leafRes := oct.resolutionForLayer SVO_LEAF_LAYER
  let off := qadd (qdiv oct.VoxelSize 2) (qsub 0 (qdiv leafRes 2))
  let firstVoxel : Vec3 :=
    (qadd nodeLocation.1 off, qadd nodeLocation.2.1 off, qadd nodeLocation.2.2 off)
  let vc := getVoxelCoordFromIndex voxelIdx
  (qadd firstVoxel.1 (qmul (vc.1 : ℚ) oct.VoxelSize),
   qadd firstVoxel.2.1 (qmul (vc.2.1 : ℚ) oct.VoxelSize),
   qadd firstVoxel.2.2 (qmul (vc.2.2 : ℚ) oct.VoxelSize))

/-- `FSparseVoxelOctree::GetLocationForLink` / `GetLocationForNode`, within the
link's own tile. -/
def MOctree.getLocationForLink (oct : MOctree) (l : MLink) : Vec3 :=
  if l.LayerIdx = oct.TileLayerIdx then oct.tileCoordToLocation l.TileCoord
  else
    let tileLocation := oct.tileCoordToLocation l.TileCoord
    let halfTile := qdiv oct.tileResolution 2
    let tileMin : Vec3 := (qsub tileLocation.1 halfTile, qsub tileLocation.2.1 halfTile,
      qsub tileLocation.2.2 halfTile)
    let nodeSize := oct.resolutionForLink l
    let location := oct.mortonToLocation tileMin l.NodeIdx nodeSize
    if l.IsVoxelNode then oct.getVoxelLocation l.VoxelIdx location else location

/-- `FSparseVoxelOctree::GetFirstChildLocation`: clear the voxel index, get the
node location, then offset by `FSvoConfig::GetFirstChildLocation`. -/
def MOctree.getFirstChildLocation (oct : MOctree) (l : MLink) (offset : ECellOffset) :
    Vec3 :=
  let l' := { l with VoxelIdx := SVO_NO_VOXEL }
  let nodeLocation := oct.getLocationForLink l'
  let halfNode := qdiv (oct.resolutionForLayer l.LayerIdx) 2
  let base : Vec3 := (qsub nodeLocation.1 halfNode, qsub nodeLocation.2.1 halfNode,
    qsub nodeLocation.2.2 halfNode)
  match offset with
  | ECellOffset.Min => base
  | ECellOffset.Center =>
      let h := qdiv (oct.childResolutionForLayer l.LayerIdx) 2
      (qadd base.1 h, qadd base.2.1 h, qadd base.2.2 h)
  | ECellOffset.Max =>
      let childRes := oct.childResolutionForLayer l.LayerIdx
      (qadd base.1 childRes, qadd base.2.1 childRes, qadd base.2.2 childRes)

/-- `FSparseVoxelOctree::GetRelativeChildCoord`:
`LocationToCoord(location) - LocationToCoord(firstChildLocation)` at the child
resolution. -/
def MOctree.getRelativeChildCoord (oct : MOctree) (l : MLink) (location : Vec3) :
    IVec3 :=
  let firstChildLocation := oct.getFirstChildLocation l ECellOffset.Center
  let childRes := oct.childResolutionForLayer l.LayerIdx
  let firstChildCoord := locationToCoord oct.Seed firstChildLocation childRes
  let locationCoord := locationToCoord oct.Seed location childRes
  (locationCoord.1 - firstChildCoord.1, locationCoord.2.1 - firstChildCoord.2.1,
   locationCoord.2.2 - firstChildCoord.2.2)

/-- `FSvoUtils::IsCoordValid` against cubic extents. -/
def isCoordValid (c : IVec3) (extent : Int) : Bool :=
  decide (0 ≤ c.1) && decide (c.1 < extent) && decide (0 ≤ c.2.1) &&
    decide (c.2.1 < extent) && decide (0 ≤ c.2.2) && decide (c.2.2 < extent)

/-- `FSvoUtils::IsVoxelCoordValid` (extents 4). -/
def isVoxelCoordValid (c : IVec3) : Bool := isCoordValid c 4

/-- `FSvoUtils::GetIndexForCoord` for the 2×2×2 child grid: `x + 2y + 4z`. -/
def getChildIndexForCoord (c : IVec3) : Nat :=
  (c.1 + 2 * c.2.1 + 4 * c.2.2).toNat

/-- `FSvoUtils::GetVoxelIndexForCoord` (extents 4×4×4, cast to `uint8`):
`x + 4y + 16z`. -/
def getVoxelIndexForCoord (c : IVec3) : Nat :=
  (c.1 + 4 * c.2.1 + 16 * c.2.2).toNat % 256

/-- Voxel test on a raw 64-bit voxel field (`FSvoNode::IsVoxelBlocked`). -/
def voxelsBlockedAt (voxels voxelIdx : Nat) : Bool :=
  voxels &&& (1 <<< voxelIdx) != 0

/-- The state the walk sees for a model node at a layer
(`FSvoNode::GetNodeState`: derived from the voxels at the leaf layer, stored
otherwise). -/
def mnodeState (layerIdx : Nat) (n : MNode) : ENodeState :=
  if layerIdx = SVO_LEAF_LAYER then nodeStateDerived n.Voxels else n.State

/-- `FSparseVoxelOctree::GetTileAtCoord` (tile ids identified with coords). -/
def MOctree.getTileAtCoord (oct : MOctree) (c : IVec3) : Option MTile :=
  oct.Tiles.find? (fun t => t.Coord = c)

/-- The descent loop of `FSparseVoxelOctree::GetLinkForLocation`
(SparseVoxelOctree.cpp, lines 483-594). Each iteration either returns or
descends one layer, so `TileLayerIdx + 1` iterations suffice; the fuel makes
that explicit. -/
def MOctree.getLinkForLocationAux (oct : MOctree) (tile : MTile) (location : Vec3)
    (allowBlocked : Bool) : Nat → MLink → Option MLink
  | 0, _ => none
  | fuel + 1, cur =>
    let nodeData? : Option MNode :=
      if cur.LayerIdx = oct.TileLayerIdx then
        some { Active := true, State := tile.RootState, Voxels := 0 }
      else tile.Node cur.LayerIdx cur.NodeIdx
    match nodeData? with
    | none => none
    | some nd =>
      let state := mnodeState cur.LayerIdx nd
      if cur.LayerIdx = SVO_LEAF_LAYER then
        if state = ENodeState.Open then some cur
        else if state = ENodeState.Blocked then
          if allowBlocked then some cur else none
        else
          let voxelCoordRaw := oct.getRelativeChildCoord cur location
          let voxelCoord :=
            if isVoxelCoordValid voxelCoordRaw then voxelCoordRaw
            else
              (if voxelCoordRaw.1 < 0 then voxelCoordRaw.1 + 1 else voxelCoordRaw.1,
               if voxelCoordRaw.2.1 < 0 then voxelCoordRaw.2.1 + 1 else voxelCoordRaw.2.1,
               if voxelCoordRaw.2.2 < 0 then voxelCoordRaw.2.2 + 1 else voxelCoordRaw.2.2)
          let cur' := { cur with VoxelIdx := getVoxelIndexForCoord voxelCoord }
          let voxelIsBlocked := voxelsBlockedAt nd.Voxels cur'.VoxelIdx
          if !voxelIsBlocked || allowBlocked then some cur' else none
      else if state = ENodeState.PartiallyBlocked then
        let childCoord := oct.getRelativeChildCoord cur location
        if isCoordValid childCoord SVO_OCTANT_GRID_EXTENT then
          let coordIdx := getChildIndexForCoord childCoord
          oct.getLinkForLocationAux tile location allowBlocked fuel
            { TileCoord := cur.TileCoord, LayerIdx := cur.LayerIdx - 1,
              NodeIdx := cur.NodeIdx * 8 + coordIdx, VoxelIdx := SVO_NO_VOXEL }
        else none
      else
        if state = ENodeState.Open then some cur else none

/-- `FSparseVoxelOctree::GetLinkForLocation` (SparseVoxelOctree.cpp, lines
462-595). -/
def MOctree.getLinkForLocation (oct : MOctree) (location : Vec3)
    (allowBlocked : Bool) : Option MLink :=
  if oct.Tiles.isEmpty then none
  else
    let tileCoord := locationToCoord oct.Seed location oct.tileResolution
    match oct.getTileAtCoord tileCoord with
    | none => none
    | some tile =>
        oct.getLinkForLocationAux tile location allowBlocked (oct.TileLayerIdx + 1)
          { TileCoord := tileCoord, LayerIdx := oct.TileLayerIdx, NodeIdx := 0,
            VoxelIdx := SVO_NO_VOXEL }

/-- A concrete octree for C5: seed 0, voxel size 1, tile layer 1 (tile edge 8).
One tile at (0,0,0) whose root is `Blocked` with no allocated nodes (the state
a fully blocked, trimmed tile has after `FSvoTile::TrimExcessNodes` and
`FEditableSvo::CopyTile`). -/
def c5BlockedOctree : MOctree :=
  { Seed := (0, 0, 0)
    VoxelSize := 1
    TileLayerIdx := 1
    Tiles := [{ Coord := (0, 0, 0), RootState := ENodeState.Blocked,
                Node := fun _ _ => none }] }

/-- A concrete octree for C5's leaf contrast: same geometry, root
`PartiallyBlocked`, its children partially blocked leaves whose voxel (1,1,1)
(index 21) is blocked. -/
def c5LeafOctree : MOctree :=
  { Seed := (0, 0, 0)
    VoxelSize := 1
    TileLayerIdx := 1
    Tiles := [{ Coord := (0, 0, 0), RootState := ENodeState.PartiallyBlocked,
                Node := fun layer idx =>
                  if layer = 0 && idx < 8 then
                    some { Active := true, State := ENodeState.PartiallyBlocked,
                           Voxels := 2 ^ 21 }
                  else none }] }

/-- C5 evaluation: at a `Blocked` non-leaf node (here the tile root) the walk
returns the invalid link even with `allowBlocked = true` — only the leaf-layer
branches consult `AllowBlocked` (SparseVoxelOctree.cpp line 590 versus lines
525 and 558). The second conjunct shows the contrast: a *blocked voxel* of a
partially blocked leaf is returned when `allowBlocked = true`. -/
theorem getLinkForLocation_C5_blockedNonLeaf :
    c5BlockedOctree.getLinkForLocation (1, 1, 1) true = none ∧
    c5LeafOctree.getLinkForLocation (1, 1, 1) true =
      some { TileCoord := (0, 0, 0), LayerIdx := 0, NodeIdx := 0,
             VoxelIdx := getVoxelIndexForCoord (1, 1, 1) } := by
  constructor
  · decide
  · decide

/-! ### The A* search core (NavSvoQuery.cpp / NavSvoNode.h / NavSvoPathQuery.cpp)

The search runs over the `MOctree` model extended with stored neighbor links
(`MNode.Neighbors`, `MTile.RootNeighbors` model the resolved result of
`FSvoNode::GetNeighborLink`, which reconstructs the neighbor's tile id from the
link's user data). Costs are exact rationals; the search-node pool, binary-heap
open list and status bits are transcribed from NavSvoNode.h and NavSvoQuery.cpp.
The query hooks are those of `FNavSvoPathQuery` (goal, cost limit, `Nearest`
tie-break) with an optional filter visit callback and no bounds constraints. -/

/-- `EGunfire3DNavQueryFlags` (Gunfire3DNavQueryFilter.h). -/
def Q_Success : Nat := 1

def Q_Failure : Nat := 2

def Q_InvalidParam : Nat := 4

def Q_UnknownLocation : Nat := 8

def Q_OutOfMemory : Nat := 16

def Q_OutOfNodes : Nat := 32

/-- Bit test on a status word. -/
def hasFlag (status flag : Nat) : Bool := status &&& flag != 0

def NAVSVONODE_OPEN : Nat := 1

def NAVSVONODE_CLOSED : Nat := 2

/-- `MAX_flt` (the largest finite `float`), used to seed the start node's
heuristic. -/
def MAX_flt : ℚ := 340282346638528859811704183484516925440

/-- `MLink` mirror of `FSvoNodeLinkBase::IsValid`. -/
def MLink.isValid (l : MLink) : Bool :=
  decide (l.LayerIdx < SVO_MAX_LAYERS) && decide (l.NodeIdx < SVO_MAX_NODES) &&
    (decide (l.VoxelIdx < SVO_VOXELS_PER_LEAF) || decide (l.VoxelIdx = SVO_NO_VOXEL))

/-- `FNavSvoNode` (NavSvoNode.h): one search node of the pool. -/
structure FNavSvoNodeM where
  NodeLink : MLink
  ParentIdx : Nat
  Flags : Nat
  FCost : ℚ
  GCost : ℚ
  Heuristic : ℚ
  Neighbor : ESvoNeighbor
  PortalLocation : Vec3
  TravelDistSqrd : ℚ

/-- `FNavSvoNode::Reset` followed by the link assignment in
`FNavSvoNodePool::GetNode`. -/
def resetNavNode (link : MLink) : FNavSvoNodeM :=
  { NodeLink := link, ParentIdx := 0, Flags := 0, FCost := 0, GCost := 0,
    Heuristic := MAX_flt, Neighbor := ESvoNeighbor.Front,
    PortalLocation := (0, 0, 0), TravelDistSqrd := 0 }

/-- `FNavSvoNodePool`: nodes in insertion order; `GetNodeIndex` is the 1-based
position (0 = null), as in the source where index 0 encodes a null parent. -/
structure NodePoolM where
  Nodes : List FNavSvoNodeM
  MaxNodes : Nat

/-- `FNavSvoNodePool::GetNode`: fails when the pool is full, otherwise appends
a fresh node (the source's hash-bucket insert, keyed for `FindNode`). -/
def NodePoolM.getNode (p : NodePoolM) (link : MLink) : Option (NodePoolM × Nat) :=
  if p.Nodes.length ≥ p.MaxNodes then none
  else some ({ p with Nodes := p.Nodes ++ [resetNavNode link] }, p.Nodes.length + 1)

/-- `FNavSvoNodePool::FindNode` as a 1-based index (0 = not found). The links
stored in the pool are pairwise distinct (`GetNode` is only called after
`FindNode` misses), so scan order does not matter. -/
def NodePoolM.findNodeIdx (p : NodePoolM) (link : MLink) : Nat :=
  match p.Nodes.findIdx? (fun nd => nd.NodeLink = link) with
  | some i => i + 1
  | none => 0

/-- `FNavSvoNodePool::GetNodeAtIndex`. -/
def NodePoolM.getAt (p : NodePoolM) (i : Nat) : Option FNavSvoNodeM :=
  if i = 0 then none else p.Nodes.get? (i - 1)

/-- Write back through a 1-based index (a C++ pointer store). -/
def NodePoolM.setAt (p : NodePoolM) (i : Nat) (n : FNavSvoNodeM) : NodePoolM :=
  if i = 0 then p else { p with Nodes := p.Nodes.set (i - 1) n }

/-- `FNavSvoNode::operator>` between two pool entries (by `FCost`). -/
def navNodeGreater (p : NodePoolM) (i j : Nat) : Bool :=
  match p.getAt i, p.getAt j with
  | some a, some b => decide (a.FCost > b.FCost)
  | _, _ => false

/-- `FNavSvoNodeQueue::BubbleUp` (NavSvoNode.h, lines 250-261). The heap holds
1-based pool indices; the fuel is `nodeID + 1` at every call site, an exact
bound since the position strictly decreases. -/
def bubbleUp (p : NodePoolM) (node : Nat) : Nat → Nat → List Nat → List Nat
  | 0, nodeID, heap => heap.set nodeID node
  | fuel + 1, nodeID, heap =>
    let parent := (nodeID - 1) / 2
    if nodeID > 0 && navNodeGreater p (heap.getD parent 0) node then
      bubbleUp p node fuel parent (heap.set nodeID (heap.getD parent 0))
    else heap.set nodeID node

/-- `FNavSvoNodeQueue::TrickleDown` (NavSvoNode.h, lines 263-277); fuel is the
heap size plus one, an exact bound since the position strictly increases. -/
def trickleDown (p : NodePoolM) (node : Nat) : Nat → Nat → List Nat → List Nat
  | 0, nodeID, heap => bubbleUp p node (nodeID + 1) nodeID heap
  | fuel + 1, nodeID, heap =>
    let size := heap.length
    let child0 := nodeID * 2 + 1
    if child0 < size then
      let child :=
        if child0 + 1 < size && navNodeGreater p (heap.getD child0 0) (heap.getD (child0 + 1) 0)
        then child0 + 1 else child0
      trickleDown p node fuel child (heap.set nodeID (heap.getD child 0))
    else bubbleUp p node (nodeID + 1) nodeID heap

/-- `FNavSvoNodeQueue::Push`. -/
def heapPush (p : NodePoolM) (heap : List Nat) (node : Nat) : List Nat :=
  let heap' := heap ++ [0]
  bubbleUp p node heap'.length (heap'.length - 1) heap'

/-- `FNavSvoNodeQueue::Pop`: take the root, shrink, trickle the last element
down from the root. -/
def heapPop (p : NodePoolM) (heap : List Nat) : Nat × List Nat :=
  let result := heap.getD 0 0
  let last := heap.getD (heap.length - 1) 0
  let heap' := heap.take (heap.length - 1)
  (result, trickleDown p last (heap'.length + 1) 0 heap')

/-- `FNavSvoNodeQueue::Modify`: locate the node in the heap and bubble it up. -/
def heapModify (p : NodePoolM) (heap : List Nat) (node : Nat) : List Nat :=
  match heap.findIdx? (fun x => x = node) with
  | some i => bubbleUp p node (i + 1) i heap
  | none => heap

/-- The counters and status of `FGunfire3DNavQueryResults`. -/
structure SearchResultsM where
  Status : Nat
  NumNodesVisited : Nat
  NumNodesQueried : Nat
  NumNodesOpened : Nat
  NumNodesReopened : Nat

/-- The mutable state of a running `FNavSvoQuery`. `Best` is the pool index of
`BestSearchNode` (0 = null). -/
structure SearchStateM where
  Pool : NodePoolM
  Open : List Nat
  Best : Nat
  Res : SearchResultsM

/-- The `FNavSvoPathQuery` policy plus the filter values `SearchNodes` reads:
goal, cost limit, heuristic scale, base traversal cost, optional visit
callback; no bounds constraints. -/
structure PathQueryParamsM where
  Goal : MLink
  CostLimit : ℚ
  HeuristicScale : ℚ
  BaseTraversalCost : ℚ
  Callback : Option (MLink → Bool)

/-- The tile root as an `FSvoNode` view (`FSvoTile::GetNodeInfo`). -/
def MTile.rootNode (t : MTile) : MNode :=
  { Active := true, State := t.RootState, Voxels := 0, Neighbors := t.RootNeighbors }

/-- `FSparseVoxelOctree::GetNodeFromLink` (SparseVoxelOctree.inl): tile by id,
the tile's root for the tile layer, otherwise the pool slot (active only). -/
def MOctree.getNodeFromLink (oct : MOctree) (l : MLink) : Option MNode :=
  if l.isValid then
    match oct.getTileAtCoord l.TileCoord with
    | none => none
    | some t =>
        if l.LayerIdx = oct.TileLayerIdx then some t.rootNode
        else t.Node l.LayerIdx l.NodeIdx
  else none

/-- `FSvoUtils::LeafFaceVoxelsLUT` (SparseVoxelOctreeUtils.cpp): the 16 voxels
of each face of a leaf. -/
def leafFaceVoxelsLUT : ESvoNeighbor → List Nat
  | .Front => [3, 7, 11, 15, 19, 23, 27, 31, 35, 39, 43, 47, 51, 55, 59, 63]
  | .Right => [12, 13, 14, 15, 28, 29, 30, 31, 44, 45, 46, 47, 60, 61, 62, 63]
  | .Top => [48, 49, 50, 51, 52, 53, 54, 55, 56, 57, 58, 59, 60, 61, 62, 63]
  | .Back => [0, 4, 8, 12, 16, 20, 24, 28, 32, 36, 40, 44, 48, 52, 56, 60]
  | .Left => [0, 1, 2, 3, 16, 17, 18, 19, 32, 33, 34, 35, 48, 49, 50, 51]
  | .Bottom => [0, 1, 2, 3, 4, 5, 6, 7, 8, 9, 10, 11, 12, 13, 14, 15]
  | .Self => []

/-- `FSvoUtils::GetTouchingNeighborVoxels`: the LUT row of the opposite face. -/
def getTouchingNeighborVoxels (n : ESvoNeighbor) : List Nat :=
  leafFaceVoxelsLUT (getOppositeNeighbor n)

/-- `FSvoUtils::ChildTouchingNeighborLUT`. -/
def childTouchingNeighborLUT : ESvoNeighbor → List Nat
  | .Front => [1, 3, 5, 7]
  | .Right => [2, 3, 6, 7]
  | .Top => [4, 5, 6, 7]
  | .Back => [0, 2, 4, 6]
  | .Left => [0, 1, 4, 5]
  | .Bottom => [0, 1, 2, 3]
  | .Self => []

/-- `FSvoUtils::GetChildrenTouchingNeighbor`. -/
def getChildrenTouchingNeighbor (n : ESvoNeighbor) : List Nat :=
  childTouchingNeighborLUT n

/-- `FSvoUtils::OppositeLeafFaceVoxelOffsetLUT`. -/
def oppositeLeafFaceVoxelOffsetLUT : ESvoNeighbor → Int
  | .Front => -3
  | .Right => -12
  | .Top => -48
  | .Back => 3
  | .Left => 12
  | .Bottom => 48
  | .Self => 0

/-- `FSvoUtils::GetNeighborVoxel` (`uint8` arithmetic). -/
def getNeighborVoxel (voxelIndex : Nat) (n : ESvoNeighbor) : Nat :=
  (((voxelIndex : Int) + oppositeLeafFaceVoxelOffsetLUT n) % 256).toNat

def ivecAdd (a b : IVec3) : IVec3 := (a.1 + b.1, a.2.1 + b.2.1, a.2.2 + b.2.2)

/-- One step of `FSvoNeighborIteratorBase::UpdateNeighbor` (the .inl): within a
partially blocked leaf a voxel link steps to the adjacent voxel; otherwise the
node's stored neighbor link is resolved, and a voxel-to-voxel transition onto a
partially blocked neighbor leaf picks the complement face voxel. `none` when
the neighbor node does not resolve (the iterator skips it). -/
def neighborEntryFor (oct : MOctree) (link : MLink) (node : MNode) (n : ESvoNeighbor) :
    Option (MLink × MNode) :=
  let nvc := ivecAdd (getVoxelCoordFromIndex link.VoxelIdx) (getNeighborDirection n)
  if link.IsVoxelNode && isVoxelCoordValid nvc then
    some ({ link with VoxelIdx := getVoxelIndexForCoord nvc }, node)
  else
    match node.Neighbors n with
    | none => none
    | some nbLink =>
      match oct.getNodeFromLink nbLink with
      | none => none
      | some nbNode =>
        let nbLink' :=
          if link.IsVoxelNode && decide (nbLink.LayerIdx = SVO_LEAF_LAYER) &&
              decide (mnodeState nbLink.LayerIdx nbNode = ENodeState.PartiallyBlocked)
          then { nbLink with VoxelIdx := getNeighborVoxel link.VoxelIdx n }
          else nbLink
        some (nbLink', nbNode)

/-- All entries an `FSvoNeighborConstIterator` yields for a link, in direction
order, invalid neighbors skipped. -/
def neighborEntries (oct : MOctree) (link : MLink) :
    List (ESvoNeighbor × MLink × MNode) :=
  match oct.getNodeFromLink link with
  | none => []
  | some node =>
      [ESvoNeighbor.Front, ESvoNeighbor.Right, ESvoNeighbor.Top, ESvoNeighbor.Back,
        ESvoNeighbor.Left, ESvoNeighbor.Bottom].filterMap fun n =>
        (neighborEntryFor oct link node n).map fun e => (n, e.1, e.2)

/-- `FNavSvoQuery::GetPortalLocation` (NavSvoQuery.cpp, lines 903-945) without
bounds constraints: the center of the smaller node's face across the
neighbor direction. -/
def getPortalLocation (oct : MOctree) (fromLink toLink : MLink) (n : ESvoNeighbor) :
    Vec3 :=
  let fromResolution := oct.resolutionForLink fromLink
  let toResolution := oct.resolutionForLink toLink
  let pick :=
    if fromResolution < toResolution then
      (n, oct.getLocationForLink fromLink, qdiv fromResolution 2)
    else
      (getOppositeNeighbor n, oct.getLocationForLink toLink, qdiv toResolution 2)
  let d := getNeighborDirection pick.1
  let c := pick.2.1
  let e := pick.2.2
  (qadd c.1 (qmul (d.1 : ℚ) e), qadd c.2.1 (qmul (d.2.1 : ℚ) e),
   qadd c.2.2 (qmul (d.2.2 : ℚ) e))

/-- Componentwise clamp (`FBox::GetClosestPointTo`). -/
def qclamp (x lo hi : ℚ) : ℚ := if x < lo then lo else if hi < x then hi else x

/-- `FNavSvoQuery::GetHeuristic` (NavSvoQuery.cpp, lines 947-970): Manhattan
distance in voxels between the closest point of the node's bounds to the goal
center and the goal center, scaled by the heuristic scale. -/
def getHeuristicM (oct : MOctree) (params : PathQueryParamsM) (fromLink : MLink) : ℚ :=
  let resolution := oct.VoxelSize
  let heuristicScale := params.HeuristicScale
  let fromCenter := oct.getLocationForLink fromLink
  let fromExtent := qdiv (oct.resolutionForLink fromLink) 2
  let goalLocation := oct.getLocationForLink params.Goal
  let closestFromLocation : Vec3 :=
    (qclamp goalLocation.1 (qsub fromCenter.1 fromExtent) (qadd fromCenter.1 fromExtent),
     qclamp goalLocation.2.1 (qsub fromCenter.2.1 fromExtent) (qadd fromCenter.2.1 fromExtent),
     qclamp goalLocation.2.2 (qsub fromCenter.2.2 fromExtent) (qadd fromCenter.2.2 fromExtent))
  let fromCoord := locationToCoord oct.Seed closestFromLocation resolution
  let goalCoord := locationToCoord oct.Seed goalLocation resolution
  let manhattan : Nat := (fromCoord.1 - goalCoord.1).natAbs +
    (fromCoord.2.1 - goalCoord.2.1).natAbs + (fromCoord.2.2 - goalCoord.2.2).natAbs
  qmul (manhattan : ℚ) heuristicScale

/-- `FNavSvoQuery::GetTraversalCost` (NavSvoQuery.cpp, lines 977-989):
`baseCost * (1 - resolution(to) / tileResolution)`. -/
def getTraversalCostM (oct : MOctree) (params : PathQueryParamsM) (toLink : MLink) : ℚ :=
  qmul params.BaseTraversalCost
    (qsub 1 (qdiv (oct.resolutionForLink toLink) oct.tileResolution))

/-- `FVector::DistSquared`. -/
def v3distSq (a b : Vec3) : ℚ :=
  let dx := qsub a.1 b.1
  let dy := qsub a.2.1 b.2.1
  let dz := qsub a.2.2 b.2.2
  qadd (qadd (qmul dx dx) (qmul dy dy)) (qmul dz dz)

/-- `FSvoNodeLink::CalculateChild` on the model link. -/
def MLink.calculateChild (l : MLink) (childIndex : Nat) : MLink :=
  { TileCoord := l.TileCoord, LayerIdx := l.LayerIdx - 1,
    NodeIdx := l.NodeIdx * 8 + childIndex, VoxelIdx := SVO_NO_VOXEL }

/-- The pool/heap/result/best state threaded through `OpenNeighbor` and its
callers, with the returned `bool` of each call. -/
abbrev OpenStep := SearchStateM × Bool

/-- The tail of `FNavSvoQuery::OpenNeighbor` once the neighbor is (or has been
added) in the pool at index `idx`: write the fields back, `Modify` or `Push`
the heap entry, bump the counters and the best-node tracker. -/
def openNeighborCommit (s : SearchStateM) (fromIdx : Nat) (n : ESvoNeighbor)
    (nbLink : MLink) (idx : Nat) (f g h : ℚ) (portal : Vec3) (travel : ℚ) :
    OpenStep :=
  let oldFlags := ((s.Pool.getAt idx).map FNavSvoNodeM.Flags).getD 0
  let updated : FNavSvoNodeM :=
    { NodeLink := nbLink, ParentIdx := fromIdx, Flags := oldFlags &&& 0xFFFFFFFD,
      FCost := f, GCost := g, Heuristic := h, Neighbor := n,
      PortalLocation := portal, TravelDistSqrd := travel }
  let wasOpen := hasFlag updated.Flags NAVSVONODE_OPEN
  let s1 :=
    if wasOpen then
      let pool1 := s.Pool.setAt idx updated
      { s with
        Pool := pool1,
        Open := heapModify pool1 s.Open idx,
        Res := { s.Res with NumNodesReopened := s.Res.NumNodesReopened + 1 } }
    else
      let pool1 := s.Pool.setAt idx { updated with Flags := updated.Flags ||| NAVSVONODE_OPEN }
      { s with
        Pool := pool1,
        Open := heapPush pool1 s.Open idx,
        Res := { s.Res with NumNodesOpened := s.Res.NumNodesOpened + 1 } }
  let newBest :=
    match s1.Pool.getAt s1.Best with
    | none => idx
    | some best => if h < best.Heuristic then idx else s1.Best
  let s2 :=
    { s1 with
      Best := newBest,
      Res := { s1.Res with NumNodesQueried := s1.Pool.Nodes.length } }
  (s2, true)

/-- `FNavSvoQuery::OpenNeighbor` (part_004, lines 644-792), with the
`FNavSvoPathQuery` hooks inlined (`GetCostTieBreaker() = Nearest`,
`CanOpenNeighbor` = cost-limit test, `OnOpenNeighbor` = no-op).
`fromIdx`/`fromNode` are the pool index and value of `FromSearchNode` (its
entry is closed and never written during its own expansion). On pool
exhaustion `TryAddSearchNode` ORs only `OutOfNodes` into the status. -/
def openNeighbor (oct : MOctree) (params : PathQueryParamsM) (s : SearchStateM)
    (fromIdx : Nat) (fromNode : FNavSvoNodeM) (n : ESvoNeighbor)
    (nbLink : MLink) : OpenStep :=
  if ¬ nbLink.isValid then (s, false)
  else if fromNode.NodeLink = nbLink then (s, false)
  else if (match s.Pool.getAt fromNode.ParentIdx with
           | some pn => pn.NodeLink = nbLink
           | none => False : Bool) then (s, false)
  else
    let nbIdx := s.Pool.findNodeIdx nbLink
    let nbExisting := s.Pool.getAt nbIdx
    let alreadyOpen := match nbExisting with
      | some x => hasFlag x.Flags NAVSVONODE_OPEN
      | none => false
    let alreadyClosed := match nbExisting with
      | some x => hasFlag x.Flags NAVSVONODE_CLOSED
      | none => false
    if alreadyClosed then (s, false)
    else
      let portal := getPortalLocation oct fromNode.NodeLink nbLink n
      let delta := v3distSq fromNode.PortalLocation portal
      let totalTravel := qadd fromNode.TravelDistSqrd delta
      let h := getHeuristicM oct params nbLink
      let g := qadd fromNode.GCost (getTraversalCostM oct params nbLink)
      let f := qadd g h
      let cheaper :=
        if alreadyOpen then
          openNeighborKeepsNew ENavSvoQueryTieBreaker.Nearest
            ((nbExisting.map FNavSvoNodeM.FCost).getD 0)
            ((nbExisting.map FNavSvoNodeM.GCost).getD 0) f g
        else true
      if ¬ cheaper then (s, false)
      else if params.CostLimit > 0 ∧ f > params.CostLimit then (s, false)
      else if nbIdx = 0 then
        match s.Pool.getNode nbLink with
        | none =>
            ({ s with Res := { s.Res with Status := s.Res.Status ||| Q_OutOfNodes } }, false)
        | some (pool', newIdx) =>
            openNeighborCommit { s with Pool := pool' } fromIdx n nbLink newIdx f g h
              portal totalTravel
      else openNeighborCommit s fromIdx n nbLink nbIdx f g h portal totalTravel

/-- `FNavSvoQuery::OpenVoxelsOnNeighborNode`: open every unblocked voxel of
the neighbor leaf's touching face. -/
def openVoxelsOnNeighborNode (oct : MOctree) (params : PathQueryParamsM)
    (s : SearchStateM) (fromIdx : Nat) (fromNode : FNavSvoNodeM)
    (n : ESvoNeighbor) (nbLink : MLink) (nbNode : MNode) : OpenStep :=
  (getTouchingNeighborVoxels n).foldl
    (fun acc v =>
      if ¬ voxelsBlockedAt nbNode.Voxels v then
        let r := openNeighbor oct params acc.1 fromIdx fromNode n
          { nbLink with VoxelIdx := v }
        (r.1, acc.2 || r.2)
      else acc)
    (s, false)

/-- `FNavSvoQuery::OpenNeighborNode` with `OpenChildrenOnNeighborNode` inlined
as the final case (the recursive descent into the children touching the shared
face). The fuel is `nbLink.LayerIdx + 1` at the top-level call, an exact bound
since each descent lowers the layer by one. -/
def openNeighborNode (oct : MOctree) (params : PathQueryParamsM) :
    Nat → SearchStateM → Nat → FNavSvoNodeM → ESvoNeighbor → MLink → MNode → OpenStep
  | 0, s, _, _, _, _, _ => (s, false)
  | fuel + 1, s, fromIdx, fromNode, n, nbLink, nbNode =>
    if nbLink.IsVoxelNode then
      if voxelsBlockedAt nbNode.Voxels nbLink.VoxelIdx then (s, false)
      else openNeighbor oct params s fromIdx fromNode n nbLink
    else if mnodeState nbLink.LayerIdx nbNode = ENodeState.Blocked then (s, false)
    else if mnodeState nbLink.LayerIdx nbNode = ENodeState.Open then
      openNeighbor oct params s fromIdx fromNode n nbLink
    else if nbLink.LayerIdx = SVO_LEAF_LAYER then
      openVoxelsOnNeighborNode oct params s fromIdx fromNode n nbLink nbNode
    else
      (getChildrenTouchingNeighbor (getOppositeNeighbor n)).foldl
        (fun acc childIdx =>
          let childLink := nbLink.calculateChild childIdx
          match oct.getNodeFromLink childLink with
          | none => acc
          | some childNode =>
              let r := openNeighborNode oct params fuel acc.1 fromIdx fromNode n
                childLink childNode
              (r.1, acc.2 || r.2))
        (s, false)

/-- `FNavSvoQuery::OpenNeighbors`: run `OpenNeighborNode` over every entry the
neighbor iterator yields for the visited node's link. -/
def openNeighbors (oct : MOctree) (params : PathQueryParamsM) (s : SearchStateM)
    (fromIdx : Nat) (fromNode : FNavSvoNodeM) : OpenStep :=
  (neighborEntries oct fromNode.NodeLink).foldl
    (fun acc e =>
      let r := openNeighborNode oct params (e.2.1.LayerIdx + 1) acc.1 fromIdx
        fromNode e.1 e.2.1 e.2.2
      (r.1, acc.2 || r.2))
    (s, false)

/-- The `while (!OpenList.IsEmpty())` loop of `FNavSvoQuery::SearchNodes` with
the `FNavSvoPathQuery::OnNodeVisited` goal test inlined. `limit` is
`NodeVisitationLimit`; the fuel `limit + 1` is exact since the visit counter
strictly increases each iteration and the loop breaks when it reaches the
limit. The two `none` arms mirror pointer dereferences the C++ performs
unconditionally; they are unreachable in any run started by `searchNodes`. -/
def searchLoop (oct : MOctree) (params : PathQueryParamsM) (limit : Nat) :
    Nat → SearchStateM → SearchStateM
  | 0, s => s
  | fuel + 1, s =>
    if s.Open.isEmpty then s
    else
      let pr := heapPop s.Pool s.Open
      match s.Pool.getAt pr.1 with
      | none => { s with Open := pr.2 }
      | some nd =>
        let nd' := { nd with Flags := nd.Flags &&& 0xFFFFFFFE ||| NAVSVONODE_CLOSED }
        let s1 := { s with Pool := s.Pool.setAt pr.1 nd', Open := pr.2 }
        match oct.getNodeFromLink nd'.NodeLink with
        | none => s1
        | some _node =>
          if nd'.NodeLink = params.Goal then { s1 with Best := pr.1 }
          else
            let cbOk : Bool := match params.Callback with
              | none => true
              | some cb => cb nd'.NodeLink
            if cbOk = false then s1
            else
            let s2 := (openNeighbors oct params s1 pr.1 nd').1
            let visited := s2.Res.NumNodesVisited + 1
            let s3 := { s2 with Res := { s2.Res with NumNodesVisited := visited } }
            if visited = limit then s3
            else searchLoop oct params limit fuel s3

/-- `FNavSvoQuery::SearchNodes` (part_004, lines 553-642) for an
`FNavSvoPathQuery` built with `maxNodes` search nodes (so
`NodeVisitationLimit = maxNodes * 4`), on fresh query results. Returns the
final state and the function's return value. -/
def searchNodes (oct : MOctree) (params : PathQueryParamsM) (maxNodes : Nat)
    (start : MLink) : SearchStateM × Bool :=
  let res0 : SearchResultsM := ⟨0, 0, 0, 0, 0⟩
  let s0 : SearchStateM :=
    { Pool := { Nodes := [], MaxNodes := maxNodes }, Open := [], Best := 0, Res := res0 }
  if maxNodes = 0 then
    ({ s0 with Res := { res0 with Status := Q_Failure ||| Q_OutOfMemory } }, false)
  else if oct.Tiles.isEmpty then
    ({ s0 with Res := { res0 with Status := Q_Failure ||| Q_InvalidParam } }, false)
  else if ¬ start.isValid then
    ({ s0 with Res := { res0 with Status := Q_Failure ||| Q_InvalidParam } }, false)
  else
    match s0.Pool.getNode start with
    | none =>
        ({ s0 with Res := { res0 with Status := (res0.Status ||| Q_OutOfNodes) ||| Q_Failure } },
         false)
    | some (pool1, startIdx) =>
      let startNode := { resetNavNode start with Flags := NAVSVONODE_OPEN, Heuristic := MAX_flt }
      let pool2 := pool1.setAt startIdx startNode
      let open1 := heapPush pool2 [] startIdx
      let s1 : SearchStateM := { Pool := pool2, Open := open1, Best := startIdx, Res := res0 }
      let sF := searchLoop oct params (maxNodes * 4) (maxNodes * 4 + 1) s1
      ({ sF with Res := { sF.Res with Status := sF.Res.Status ||| Q_Success } }, true)

/-- The status values `SearchNodes` can accumulate before its final
`|= Success`: nothing, or `OutOfNodes` from `TryAddSearchNode`. -/
def statusOk (st : Nat) : Prop := st = 0 ∨ st = Q_OutOfNodes

/-- Invariant carried through the search loop: the status is still clean (or
has only `OutOfNodes`) and `BestSearchNode` is set. -/
def searchInv (s : SearchStateM) : Prop := statusOk s.Res.Status ∧ s.Best ≠ 0

lemma openNeighborCommit_status (s : SearchStateM) (fromIdx : Nat)
    (n : ESvoNeighbor) (nbLink : MLink) (idx : Nat) (f g h : ℚ) (portal : Vec3)
    (travel : ℚ) :
    (openNeighborCommit s fromIdx n nbLink idx f g h portal travel).1.Res.Status =
      s.Res.Status := by
  simp only [openNeighborCommit]
  split <;> rfl

lemma openNeighborCommit_best (s : SearchStateM) (fromIdx : Nat)
    (n : ESvoNeighbor) (nbLink : MLink) (idx : Nat) (f g h : ℚ) (portal : Vec3)
    (travel : ℚ) (hidx : idx ≠ 0) (hbest : s.Best ≠ 0) :
    (openNeighborCommit s fromIdx n nbLink idx f g h portal travel).1.Best ≠ 0 := by
  simp only [openNeighborCommit]
  split
  · exact hidx
  · split
    · exact hidx
    · split <;> exact hbest

lemma openNeighborCommit_inv (s : SearchStateM) (fromIdx : Nat)
    (n : ESvoNeighbor) (nbLink : MLink) (idx : Nat) (f g h : ℚ) (portal : Vec3)
    (travel : ℚ) (hidx : idx ≠ 0) (hs : searchInv s) :
    searchInv (openNeighborCommit s fromIdx n nbLink idx f g h portal travel).1 :=
  ⟨openNeighborCommit_status s fromIdx n nbLink idx f g h portal travel ▸ hs.1,
   openNeighborCommit_best s fromIdx n nbLink idx f g h portal travel hidx hs.2⟩

lemma statusOk_orOutOfNodes {st : Nat} (h : statusOk st) :
    statusOk (st ||| Q_OutOfNodes) := by
  rcases h with h | h <;> subst h <;> right <;> rfl


lemma getNode_idx_ne_zero {p : NodePoolM} {link : MLink} {p' : NodePoolM} {i : Nat}
    (h : p.getNode link = some (p', i)) : i ≠ 0 := by
  unfold NodePoolM.getNode at h
  split at h
  · exact absurd h (by simp)
  · simp only [Option.some.injEq, Prod.mk.injEq] at h
    omega

lemma openNeighbor_inv (oct : MOctree) (params : PathQueryParamsM)
    (s : SearchStateM) (fromIdx : Nat) (fromNode : FNavSvoNodeM)
    (n : ESvoNeighbor) (nbLink : MLink) (hs : searchInv s) :
    searchInv (openNeighbor oct params s fromIdx fromNode n nbLink).1 := by
  simp only [openNeighbor]
  repeat' split
  all_goals first
    | exact hs
    | exact ⟨statusOk_orOutOfNodes hs.1, hs.2⟩
    | (rename_i pool' newIdx heq
       exact openNeighborCommit_inv _ _ _ _ _ _ _ _ _ _ (getNode_idx_ne_zero heq) hs)
    | (rename_i hne
       exact openNeighborCommit_inv _ _ _ _ _ _ _ _ _ _ hne hs)

lemma foldl_openStep_inv {α : Type} (step : OpenStep → α → OpenStep)
    (hstep : ∀ acc x, searchInv acc.1 → searchInv (step acc x).1) :
    ∀ (l : List α) (acc : OpenStep), searchInv acc.1 →
      searchInv (l.foldl step acc).1 := by
  intro l
  induction l with
  | nil => intro acc hacc; exact hacc
  | cons x xs ih => intro acc hacc; exact ih _ (hstep _ _ hacc)

lemma openVoxelsOnNeighborNode_inv (oct : MOctree) (params : PathQueryParamsM)
    (s : SearchStateM) (fromIdx : Nat) (fromNode : FNavSvoNodeM)
    (n : ESvoNeighbor) (nbLink : MLink) (nbNode : MNode) (hs : searchInv s) :
    searchInv (openVoxelsOnNeighborNode oct params s fromIdx fromNode n nbLink nbNode).1 := by
  unfold openVoxelsOnNeighborNode
  refine foldl_openStep_inv _ ?_ _ _ hs
  intro acc v hacc
  dsimp only
  split
  · exact openNeighbor_inv oct params acc.1 fromIdx fromNode n _ hacc
  · exact hacc

lemma openNeighborNode_inv (oct : MOctree) (params : PathQueryParamsM) :
    ∀ (fuel : Nat) (s : SearchStateM) (fromIdx : Nat) (fromNode : FNavSvoNodeM)
      (n : ESvoNeighbor) (nbLink : MLink) (nbNode : MNode), searchInv s →
      searchInv (openNeighborNode oct params fuel s fromIdx fromNode n nbLink nbNode).1 := by
  intro fuel
  induction fuel with
  | zero => intro s _ _ _ _ _ hs; exact hs
  | succ fuel ih =>
    intro s fromIdx fromNode n nbLink nbNode hs
    unfold openNeighborNode
    split
    · split
      · exact hs
      · exact openNeighbor_inv oct params s fromIdx fromNode n nbLink hs
    · split
      · exact hs
      · split
        · exact openNeighbor_inv oct params s fromIdx fromNode n nbLink hs
        · split
          · exact openVoxelsOnNeighborNode_inv oct params s fromIdx fromNode n
              nbLink nbNode hs
          · refine foldl_openStep_inv _ ?_ _ _ hs
            intro acc childIdx hacc
            dsimp only
            split
            · exact hacc
            · exact ih acc.1 fromIdx fromNode n _ _ hacc

lemma openNeighbors_inv (oct : MOctree) (params : PathQueryParamsM)
    (s : SearchStateM) (fromIdx : Nat) (fromNode : FNavSvoNodeM)
    (hs : searchInv s) :
    searchInv (openNeighbors oct params s fromIdx fromNode).1 := by
  unfold openNeighbors
  refine foldl_openStep_inv _ ?_ _ _ hs
  intro acc e hacc
  exact openNeighborNode_inv oct params _ acc.1 fromIdx fromNode e.1 e.2.1 e.2.2 hacc

lemma getAt_ne_zero {p : NodePoolM} {i : Nat} {nd : FNavSvoNodeM}
    (h : p.getAt i = some nd) : i ≠ 0 := by
  unfold NodePoolM.getAt at h
  split at h
  · exact absurd h (by simp)
  · assumption

lemma searchLoop_inv (oct : MOctree) (params : PathQueryParamsM) (limit : Nat) :
    ∀ (fuel : Nat) (s : SearchStateM), searchInv s →
      searchInv (searchLoop oct params limit fuel s) := by
  intro fuel
  induction fuel with
  | zero => intro s hs; exact hs
  | succ fuel ih =>
    intro s hs
    simp only [searchLoop]
    repeat' split
    all_goals first
      | exact hs
      | exact ih _ (openNeighbors_inv oct params _ _ _ hs)
      | exact openNeighbors_inv oct params _ _ _ hs
      | exact ⟨hs.1, getAt_ne_zero (by assumption)⟩

lemma searchNodes_inv_general (oct : MOctree) (params : PathQueryParamsM)
    (maxNodes : Nat) (start : MLink) (h1 : maxNodes ≠ 0) (h2 : oct.Tiles ≠ [])
    (h3 : start.isValid = true) :
    ∃ sF : SearchStateM, searchInv sF ∧
      searchNodes oct params maxNodes start =
        ({ sF with Res := { sF.Res with Status := sF.Res.Status ||| Q_Success } }, true) := by
  have hE : ¬ (oct.Tiles.isEmpty = true) := by
    cases hT : oct.Tiles with
    | nil => exact absurd hT h2
    | cons a l => simp
  have hV : ¬ ¬ (start.isValid = true) := by rw [h3]; decide
  have hG : NodePoolM.getNode { Nodes := [], MaxNodes := maxNodes } start =
      some ({ Nodes := [resetNavNode start], MaxNodes := maxNodes }, 1) := by
    unfold NodePoolM.getNode
    rw [if_neg (by simp only [List.length_nil]; omega)]
    rfl
  unfold searchNodes
  dsimp only
  rw [if_neg h1, if_neg hE, if_neg hV, hG]
  refine ⟨_, ?_, rfl⟩
  exact searchLoop_inv _ _ _ _ _ ⟨Or.inl rfl, one_ne_zero⟩

/-- C2 (amended): for every path search over a non-empty octree with a valid
start link and a non-empty node pool, `SearchNodes` returns `true` with the
`Success` bit set and the `Failure` bit clear — even when the pool is
exhausted, in which case the only extra bit is `OutOfNodes` — and the
best-heuristic node is still available (`BestSearchNode ≠ null`) as the
partial answer. (The original claim's `Failure | OutOfNodes` status is
refuted by `searchNodes_C2_poolExhaustion_counterexample`.) -/
theorem searchNodes_C2_status (oct : MOctree) (params : PathQueryParamsM)
    (maxNodes : Nat) (start : MLink) (h1 : maxNodes ≠ 0) (h2 : oct.Tiles ≠ [])
    (h3 : start.isValid = true) :
    (searchNodes oct params maxNodes start).2 = true ∧
    hasFlag (searchNodes oct params maxNodes start).1.Res.Status Q_Success = true ∧
    hasFlag (searchNodes oct params maxNodes start).1.Res.Status Q_Failure = false ∧
    ((searchNodes oct params maxNodes start).1.Res.Status = Q_Success ∨
      (searchNodes oct params maxNodes start).1.Res.Status = Q_Success ||| Q_OutOfNodes) ∧
    (searchNodes oct params maxNodes start).1.Best ≠ 0 := by
  obtain ⟨sF, hinv, hEq⟩ := searchNodes_inv_general oct params maxNodes start h1 h2 h3
  obtain ⟨hst, hbest⟩ := hinv
  rw [hEq]
  refine ⟨?_, ?_, ?_, ?_, ?_⟩
  · show (true : Bool) = true
    rfl
  · rcases hst with h0 | h0 <;> rw [h0]
    · show hasFlag (0 ||| Q_Success) Q_Success = true
      decide
    · show hasFlag (Q_OutOfNodes ||| Q_Success) Q_Success = true
      decide
  · rcases hst with h0 | h0 <;> rw [h0]
    · show hasFlag (0 ||| Q_Success) Q_Failure = false
      decide
    · show hasFlag (Q_OutOfNodes ||| Q_Success) Q_Failure = false
      decide
  · rcases hst with h0 | h0 <;> rw [h0]
    · exact Or.inl (show (0 ||| Q_Success : Nat) = Q_Success by decide)
    · exact Or.inr (show (Q_OutOfNodes ||| Q_Success : Nat) = Q_Success ||| Q_OutOfNodes by decide)
  · show sF.Best ≠ 0
    exact hbest

/-- Start of the C2 run: the root of tile (0,0,0). -/
def c2StartLink : MLink := ⟨(0, 0, 0), 1, 0, SVO_NO_VOXEL⟩

/-- Goal of the C2 run: the root of the adjacent tile (1,0,0). -/
def c2GoalLink : MLink := ⟨(1, 0, 0), 1, 0, SVO_NO_VOXEL⟩

/-- Fully open tile at (0,0,0) whose +X neighbor is the tile at (1,0,0). -/
def c2TileA : MTile :=
  { Coord := (0, 0, 0), RootState := ENodeState.Open, Node := fun _ _ => none,
    RootNeighbors := fun n => if n = ESvoNeighbor.Front then some c2GoalLink else none }

/-- Fully open tile at (1,0,0) whose -X neighbor is the tile at (0,0,0). -/
def c2TileB : MTile :=
  { Coord := (1, 0, 0), RootState := ENodeState.Open, Node := fun _ _ => none,
    RootNeighbors := fun n => if n = ESvoNeighbor.Back then some c2StartLink else none }

/-- Two side-by-side open tiles at tile layer 1, voxel size 1. -/
def c2Octree : MOctree :=
  { Seed := (0, 0, 0), VoxelSize := 1, TileLayerIdx := 1, Tiles := [c2TileA, c2TileB] }

/-- A path query from tile A's root to tile B's root, no cost limit. -/
def c2Params : PathQueryParamsM :=
  { Goal := c2GoalLink, CostLimit := 0, HeuristicScale := 2, BaseTraversalCost := 1,
    Callback := none }

/-- C2 counterexample to the original claim: searching from tile A's root
toward tile B's root with `maxSearchNodes = 1` exhausts the pool while
expanding the first neighbor, yet the final status is
`Success ||| OutOfNodes` — the `Failure` bit is clear and the `Success` bit is
set, contradicting the claimed `Failure | OutOfNodes` — and the function
returns `true` with a best node recorded. -/
theorem searchNodes_C2_poolExhaustion_counterexample :
    (searchNodes c2Octree c2Params 1 c2StartLink).1.Res.Status =
      Q_Success ||| Q_OutOfNodes ∧
    hasFlag (searchNodes c2Octree c2Params 1 c2StartLink).1.Res.Status
      Q_OutOfNodes = true ∧
    hasFlag (searchNodes c2Octree c2Params 1 c2StartLink).1.Res.Status
      Q_Failure = false ∧
    hasFlag (searchNodes c2Octree c2Params 1 c2StartLink).1.Res.Status
      Q_Success = true ∧
    (searchNodes c2Octree c2Params 1 c2StartLink).2 = true ∧
    (searchNodes c2Octree c2Params 1 c2StartLink).1.Best ≠ 0 := by
  decide

/-- Witness for `searchNodes_C2_status` at the concrete two-tile octree. -/
theorem searchNodes_C2_status_witness :
    (1 ≠ 0) ∧ c2Octree.Tiles ≠ [] ∧ c2StartLink.isValid = true ∧
    ((searchNodes c2Octree c2Params 1 c2StartLink).2 = true ∧
     hasFlag (searchNodes c2Octree c2Params 1 c2StartLink).1.Res.Status Q_Success = true ∧
     hasFlag (searchNodes c2Octree c2Params 1 c2StartLink).1.Res.Status Q_Failure = false ∧
     ((searchNodes c2Octree c2Params 1 c2StartLink).1.Res.Status = Q_Success ∨
       (searchNodes c2Octree c2Params 1 c2StartLink).1.Res.Status =
         Q_Success ||| Q_OutOfNodes) ∧
     (searchNodes c2Octree c2Params 1 c2StartLink).1.Best ≠ 0) :=
  ⟨one_ne_zero, List.cons_ne_nil _ _, by decide,
   searchNodes_C2_status c2Octree c2Params 1 c2StartLink one_ne_zero
     (List.cons_ne_nil _ _) (by decide)⟩

/-! ### Neighbor linking (FSparseVoxelOctree::LinkNeighborForNode, C4)

`FEditableSvo::FinalizeNodes` sorts the dirty nodes by layer, coarsest first,
and runs `LinkNeighborForNode` on each dirty face, so when a node is linked its
parent's neighbor link already holds its final value. The post-finalize stored
links are therefore the canonical recursion `linkForN` below, transcribed from
`LinkNeighborForNode` (SparseVoxelOctree.cpp, lines 135-243) with the parent's
stored-link read replaced by the recursive call. The forest model records which
tiles exist and which pool nodes are active; `HasChildren` of a well-formed
octree node is derived as "its first child is active" (nodes always have all
eight children allocated together, which is also the sibling-completeness
hypothesis of the theorem). -/

/-- `ChildToParentNeighborLUT[8][6]` (SparseVoxelOctree.cpp): which parent
neighbor holds a child's neighbor (`Self` = a sibling). -/
def childToParentNeighborLUT : Nat → ESvoNeighbor → ESvoNeighbor
  | 0, .Front => .Self
  | 0, .Right => .Self
  | 0, .Top => .Self
  | 0, .Back => .Back
  | 0, .Left => .Left
  | 0, .Bottom => .Bottom
  | 1, .Front => .Front
  | 1, .Right => .Self
  | 1, .Top => .Self
  | 1, .Back => .Self
  | 1, .Left => .Left
  | 1, .Bottom => .Bottom
  | 2, .Front => .Self
  | 2, .Right => .Right
  | 2, .Top => .Self
  | 2, .Back => .Back
  | 2, .Left => .Self
  | 2, .Bottom => .Bottom
  | 3, .Front => .Front
  | 3, .Right => .Right
  | 3, .Top => .Self
  | 3, .Back => .Self
  | 3, .Left => .Self
  | 3, .Bottom => .Bottom
  | 4, .Front => .Self
  | 4, .Right => .Self
  | 4, .Top => .Top
  | 4, .Back => .Back
  | 4, .Left => .Left
  | 4, .Bottom => .Self
  | 5, .Front => .Front
  | 5, .Right => .Self
  | 5, .Top => .Top
  | 5, .Back => .Self
  | 5, .Left => .Left
  | 5, .Bottom => .Self
  | 6, .Front => .Self
  | 6, .Right => .Right
  | 6, .Top => .Top
  | 6, .Back => .Back
  | 6, .Left => .Self
  | 6, .Bottom => .Self
  | 7, .Front => .Front
  | 7, .Right => .Right
  | 7, .Top => .Top
  | 7, .Back => .Self
  | 7, .Left => .Self
  | 7, .Bottom => .Self
  | _, _ => .Self

/-- `ChildNeighborLUT[8][6]` (SparseVoxelOctree.cpp): the sibling index of a
child's neighbor in a direction (wrapping into the parent's neighbor). -/
def childNeighborLUT : Nat → ESvoNeighbor → Nat
  | 0, .Front => 1
  | 0, .Right => 2
  | 0, .Top => 4
  | 0, .Back => 1
  | 0, .Left => 2
  | 0, .Bottom => 4
  | 1, .Front => 0
  | 1, .Right => 3
  | 1, .Top => 5
  | 1, .Back => 0
  | 1, .Left => 3
  | 1, .Bottom => 5
  | 2, .Front => 3
  | 2, .Right => 0
  | 2, .Top => 6
  | 2, .Back => 3
  | 2, .Left => 0
  | 2, .Bottom => 6
  | 3, .Front => 2
  | 3, .Right => 1
  | 3, .Top => 7
  | 3, .Back => 2
  | 3, .Left => 1
  | 3, .Bottom => 7
  | 4, .Front => 5
  | 4, .Right => 6
  | 4, .Top => 0
  | 4, .Back => 5
  | 4, .Left => 6
  | 4, .Bottom => 0
  | 5, .Front => 4
  | 5, .Right => 7
  | 5, .Top => 1
  | 5, .Back => 4
  | 5, .Left => 7
  | 5, .Bottom => 1
  | 6, .Front => 7
  | 6, .Right => 4
  | 6, .Top => 2
  | 6, .Back => 7
  | 6, .Left => 4
  | 6, .Bottom => 2
  | 7, .Front => 6
  | 7, .Right => 5
  | 7, .Top => 3
  | 7, .Back => 6
  | 7, .Left => 5
  | 7, .Bottom => 3
  | _, _ => 0

/-- The forest model for neighbor linking: the tile layer index, which tile
coordinates hold a tile, and which `(tile, layer, nodeIdx)` pool slots hold an
active node (layers strictly below the tile layer). -/
structure C4Forest where
  TileLayerIdx : Nat
  tileExists : IVec3 → Bool
  active : IVec3 → Nat → Nat → Bool

/-- Existence of a node at `(t, l, i)`: the tile root at the tile layer
(index 0), an active pool node below it. -/
def nodeExistsF (F : C4Forest) (t : IVec3) (l i : Nat) : Bool :=
  if l = F.TileLayerIdx then (i == 0) && F.tileExists t
  else if l < F.TileLayerIdx then F.active t l i
  else false

/-- `FSvoNode::HasChildren` of a well-formed octree: the node's first child is
active (children are always allocated eight at a time). -/
def hasChildrenF (F : C4Forest) (m : MLink) : Bool :=
  decide (0 < m.LayerIdx) && F.active m.TileCoord (m.LayerIdx - 1) (8 * m.NodeIdx)

/-- `LinkNeighborForNode` as a recursion on the parent chain (the parent's
stored neighbor link is its own `LinkNeighborForNode` result, computed first by
`FinalizeNodes`'s coarsest-first order). Tile-layer nodes link to the adjacent
tile when it exists; below that, a `Self` parent direction links to a sibling,
otherwise the parent's neighbor yields either its child on the shared face
(when it has children) or the coarser node itself. The fuel is the layer gap
to the tile layer plus one. -/
def linkForAux (F : C4Forest) : Nat → IVec3 → Nat → Nat → ESvoNeighbor → Option MLink
  | 0, _, _, _, _ => none
  | fuel + 1, t, l, i, f =>
    if l = F.TileLayerIdx then
      let tn := ivecAdd t (getNeighborDirection f)
      if F.tileExists tn then some ⟨tn, l, 0, SVO_NO_VOXEL⟩ else none
    else
      let s := i % 8
      let pd := childToParentNeighborLUT s f
      let ns := childNeighborLUT s f
      if pd = ESvoNeighbor.Self then some ⟨t, l, (i - s) + ns, SVO_NO_VOXEL⟩
      else if nodeExistsF F t (l + 1) (i / 8) = true then
        match linkForAux F fuel t (l + 1) (i / 8) pd with
        | none => none
        | some pl =>
          if hasChildrenF F pl then
            some ⟨pl.TileCoord, pl.LayerIdx - 1, 8 * pl.NodeIdx + ns, SVO_NO_VOXEL⟩
          else some pl
      else none

/-- The canonical post-finalize neighbor link of node `(t, l, i)` on face `f`. -/
def linkForN (F : C4Forest) (t : IVec3) (l i : Nat) (f : ESvoNeighbor) : Option MLink :=
  linkForAux F (F.TileLayerIdx - l + 1) t l i f

lemma lut_parent_self_or_same : ∀ s : Nat, s < 8 → ∀ f : ESvoNeighbor,
    f ≠ ESvoNeighbor.Self →
    childToParentNeighborLUT s f = ESvoNeighbor.Self ∨
      childToParentNeighborLUT s f = f := by
  decide

lemma lut_child_lt_eight : ∀ s : Nat, s < 8 → ∀ f : ESvoNeighbor,
    f ≠ ESvoNeighbor.Self → childNeighborLUT s f < 8 := by
  decide

lemma lut_self_inverse : ∀ s : Nat, s < 8 → ∀ f : ESvoNeighbor,
    f ≠ ESvoNeighbor.Self → childToParentNeighborLUT s f = ESvoNeighbor.Self →
    childToParentNeighborLUT (childNeighborLUT s f) (getOppositeNeighbor f) =
        ESvoNeighbor.Self ∧
      childNeighborLUT (childNeighborLUT s f) (getOppositeNeighbor f) = s := by
  decide

lemma lut_external_inverse : ∀ s : Nat, s < 8 → ∀ f : ESvoNeighbor,
    f ≠ ESvoNeighbor.Self → childToParentNeighborLUT s f = f →
    childToParentNeighborLUT (childNeighborLUT s f) (getOppositeNeighbor f) =
        getOppositeNeighbor f ∧
      childNeighborLUT (childNeighborLUT s f) (getOppositeNeighbor f) = s := by
  decide

lemma opp_ne_self : ∀ f : ESvoNeighbor, f ≠ ESvoNeighbor.Self →
    getOppositeNeighbor f ≠ ESvoNeighbor.Self := by
  decide

lemma ivec_roundtrip (f : ESvoNeighbor) (t : IVec3) :
    ivecAdd (ivecAdd t (getNeighborDirection f))
      (getNeighborDirection (getOppositeNeighbor f)) = t := by
  obtain ⟨x, y, z⟩ := t
  cases f <;>
    simp [ivecAdd, getNeighborDirection, getOppositeNeighbor, Prod.ext_iff]

lemma linkForN_tile (F : C4Forest) (t : IVec3) (i : Nat) (f : ESvoNeighbor) :
    linkForN F t F.TileLayerIdx i f =
      (if F.tileExists (ivecAdd t (getNeighborDirection f)) then
        some ⟨ivecAdd t (getNeighborDirection f), F.TileLayerIdx, 0, SVO_NO_VOXEL⟩
      else none) := by
  unfold linkForN
  rw [Nat.sub_self]
  simp [linkForAux]

lemma linkForN_nontile (F : C4Forest) (t : IVec3) (l i : Nat) (f : ESvoNeighbor)
    (hl : l < F.TileLayerIdx) :
    linkForN F t l i f =
      (if childToParentNeighborLUT (i % 8) f = ESvoNeighbor.Self then
        some ⟨t, l, (i - i % 8) + childNeighborLUT (i % 8) f, SVO_NO_VOXEL⟩
      else if nodeExistsF F t (l + 1) (i / 8) = true then
        match linkForN F t (l + 1) (i / 8) (childToParentNeighborLUT (i % 8) f) with
        | none => none
        | some pl =>
          if hasChildrenF F pl then
            some ⟨pl.TileCoord, pl.LayerIdx - 1,
              8 * pl.NodeIdx + childNeighborLUT (i % 8) f, SVO_NO_VOXEL⟩
          else some pl
      else none) := by
  unfold linkForN
  have h1 : F.TileLayerIdx - l + 1 = (F.TileLayerIdx - (l + 1) + 1) + 1 := by omega
  have h2 : ¬ (l = F.TileLayerIdx) := by omega
  rw [h1]
  simp only [linkForAux, if_neg h2]

lemma linkForN_layerBound (F : C4Forest) :
    ∀ (g : Nat) (t : IVec3) (l i : Nat) (f : ESvoNeighbor) (m : MLink),
      F.TileLayerIdx - l = g → l ≤ F.TileLayerIdx → linkForN F t l i f = some m →
      l ≤ m.LayerIdx ∧ m.LayerIdx ≤ F.TileLayerIdx := by
  intro g
  induction g with
  | zero =>
    intro t l i f m hg hl hM
    have hlT : l = F.TileLayerIdx := by omega
    subst hlT
    rw [linkForN_tile] at hM
    split at hM
    · injection hM with hm
      subst hm
      exact ⟨Nat.le_refl _, Nat.le_refl _⟩
    · exact absurd hM (by simp)
  | succ g ih =>
    intro t l i f m hg hl hM
    have hlt : l < F.TileLayerIdx := by omega
    rw [linkForN_nontile F t l i f hlt] at hM
    split at hM
    · injection hM with hm
      subst hm
      exact ⟨Nat.le_refl _, by show l ≤ F.TileLayerIdx; omega⟩
    · split at hM
      · split at hM
        · exact absurd hM (by simp)
        · next pl hpl =>
          obtain ⟨hb1, hb2⟩ := ih t (l + 1) (i / 8) _ pl (by omega) (by omega) hpl
          split at hM
          · injection hM with hm
            subst hm
            constructor
            · show l ≤ pl.LayerIdx - 1
              omega
            · show pl.LayerIdx - 1 ≤ F.TileLayerIdx
              omega
          · injection hM with hm
            subst hm
            exact ⟨by omega, hb2⟩
      · exact absurd hM (by simp)

lemma linkForN_backlink (F : C4Forest)
    (hW2 : ∀ (t : IVec3) (l i : Nat), l < F.TileLayerIdx → F.active t l i = true →
      nodeExistsF F t (l + 1) (i / 8) = true)
    (hW3 : ∀ (t : IVec3) (l i c : Nat), l < F.TileLayerIdx → F.active t l i = true →
      c < 8 → F.active t l (8 * (i / 8) + c) = true) :
    ∀ (g : Nat) (t : IVec3) (l i : Nat) (f : ESvoNeighbor) (m : MLink),
      F.TileLayerIdx - l = g → l ≤ F.TileLayerIdx → f ≠ ESvoNeighbor.Self →
      nodeExistsF F t l i = true → linkForN F t l i f = some m → m.LayerIdx = l →
      linkForN F m.TileCoord l m.NodeIdx (getOppositeNeighbor f) =
        some ⟨t, l, i, SVO_NO_VOXEL⟩ := by
  intro g
  induction g with
  | zero =>
    intro t l i f m hg hl hf hN hM hsame
    have hlT : l = F.TileLayerIdx := by omega
    subst hlT
    have hNi : i = 0 ∧ F.tileExists t = true := by
      unfold nodeExistsF at hN
      rw [if_pos rfl] at hN
      simpa using hN
    obtain ⟨rfl, hT⟩ := hNi
    rw [linkForN_tile] at hM
    split at hM
    · injection hM with hm
      subst hm
      dsimp only
      rw [linkForN_tile, ivec_roundtrip f t, if_pos hT]
    · exact absurd hM (by simp)
  | succ g ih =>
    intro t l i f m hg hl hf hN hM hsame
    have hlt : l < F.TileLayerIdx := by omega
    have hact : F.active t l i = true := by
      unfold nodeExistsF at hN
      rw [if_neg (by omega), if_pos hlt] at hN
      exact hN
    have hs8 : i % 8 < 8 := by omega
    have hns8 : childNeighborLUT (i % 8) f < 8 := lut_child_lt_eight _ hs8 f hf
    rw [linkForN_nontile F t l i f hlt] at hM
    rcases lut_parent_self_or_same (i % 8) hs8 f hf with hpd | hpd
    · rw [if_pos hpd] at hM
      injection hM with hm
      subst hm
      dsimp only
      obtain ⟨hps, hcs⟩ := lut_self_inverse (i % 8) hs8 f hf hpd
      rw [linkForN_nontile F _ l _ _ hlt]
      have hmod : (i - i % 8 + childNeighborLUT (i % 8) f) % 8 =
          childNeighborLUT (i % 8) f := by omega
      rw [hmod, if_pos hps, hcs]
      have harith : i - i % 8 + childNeighborLUT (i % 8) f -
          childNeighborLUT (i % 8) f + i % 8 = i := by omega
      rw [harith]
    · rw [if_neg (by rw [hpd]; exact hf), if_pos (hW2 t l i hlt hact), hpd] at hM
      split at hM
      · exact absurd hM (by simp)
      · next pl hpl =>
        obtain ⟨hb1, hb2⟩ := linkForN_layerBound F (F.TileLayerIdx - (l + 1)) t
          (l + 1) (i / 8) f pl rfl (by omega) hpl
        split at hM
        · next hch =>
          injection hM with hm
          subst hm
          dsimp only at hsame ⊢
          have hplL : pl.LayerIdx = l + 1 := by omega
          have hback := ih t (l + 1) (i / 8) f pl (by omega) (by omega) hf
            (hW2 t l i hlt hact) hpl hplL
          rw [linkForN_nontile F _ l _ _ hlt]
          have hmod : (8 * pl.NodeIdx + childNeighborLUT (i % 8) f) % 8 =
              childNeighborLUT (i % 8) f := by omega
          have hdiv : (8 * pl.NodeIdx + childNeighborLUT (i % 8) f) / 8 =
              pl.NodeIdx := by omega
          obtain ⟨hpo, hco⟩ := lut_external_inverse (i % 8) hs8 f hf hpd
          rw [hmod, hdiv, if_neg (by rw [hpo]; exact opp_ne_self f hf)]
          have hchild : F.active pl.TileCoord l (8 * pl.NodeIdx) = true := by
            have h0 := hch
            unfold hasChildrenF at h0
            rw [hplL] at h0
            simpa using h0
          have hsib : F.active pl.TileCoord l
              (8 * pl.NodeIdx + childNeighborLUT (i % 8) f) = true := by
            have h1 := hW3 pl.TileCoord l (8 * pl.NodeIdx)
              (childNeighborLUT (i % 8) f) hlt hchild hns8
            have h2 : 8 * pl.NodeIdx / 8 = pl.NodeIdx := by omega
            rw [h2] at h1
            exact h1
          have hex := hW2 pl.TileCoord l (8 * pl.NodeIdx + childNeighborLUT (i % 8) f)
            hlt hsib
          rw [hdiv] at hex
          rw [if_pos hex, hpo, hback]
          dsimp only
          have hch2 : hasChildrenF F ⟨t, l + 1, i / 8, SVO_NO_VOXEL⟩ = true := by
            have h0 := hW3 t l i 0 hlt hact (by omega)
            rw [Nat.add_zero] at h0
            simp [hasChildrenF, h0]
          rw [if_pos hch2, hco]
          have harith : 8 * (i / 8) + i % 8 = i := Nat.div_add_mod i 8
          rw [harith]
          rfl
        · injection hM with hm
          subst hm
          exact absurd hsame (by omega)

/-- C4: after the finalize pass (stored links = the canonical coarsest-first
recursion `linkForN`), for every existing node N at `(t, l, i)` and face `f`
with a resolved neighbor link `m`: the neighbor is never at a strictly finer
layer than N, and when it is at the same layer its link back across the
opposite face is exactly N — which in particular satisfies the claimed
"N or an ancestor of N". Hypotheses: every active node's parent slot exists
(`hW2`) and siblings are allocated eight at a time (`hW3`), the invariants the
generator maintains for every octree it finalizes. -/
theorem linkNeighbor_C4_mutualConsistency (F : C4Forest)
    (hW2 : ∀ (t : IVec3) (l i : Nat), l < F.TileLayerIdx → F.active t l i = true →
      nodeExistsF F t (l + 1) (i / 8) = true)
    (hW3 : ∀ (t : IVec3) (l i c : Nat), l < F.TileLayerIdx → F.active t l i = true →
      c < 8 → F.active t l (8 * (i / 8) + c) = true)
    (t : IVec3) (l i : Nat) (f : ESvoNeighbor) (hf : f ≠ ESvoNeighbor.Self)
    (hl : l ≤ F.TileLayerIdx) (hN : nodeExistsF F t l i = true) (m : MLink)
    (hM : linkForN F t l i f = some m) :
    l ≤ m.LayerIdx ∧
      (m.LayerIdx = l →
        linkForN F m.TileCoord l m.NodeIdx (getOppositeNeighbor f) =
          some ⟨t, l, i, SVO_NO_VOXEL⟩) :=
  ⟨(linkForN_layerBound F (F.TileLayerIdx - l) t l i f m rfl hl hM).1,
   fun hsame =>
     linkForN_backlink F hW2 hW3 (F.TileLayerIdx - l) t l i f m rfl hl hf hN hM hsame⟩

/-- Witness forest for C4: two adjacent tiles at tile layer 1, no sub-tile
nodes. -/
def c4WitnessForest : C4Forest :=
  { TileLayerIdx := 1,
    tileExists := fun t =>
      decide (t = ((0, 0, 0) : IVec3)) || decide (t = ((1, 0, 0) : IVec3)),
    active := fun _ _ _ => false }

/-- Witness for `linkNeighbor_C4_mutualConsistency`: tile (0,0,0) links Front
to tile (1,0,0), which links Back to it. -/
theorem linkNeighbor_C4_mutualConsistency_witness :
    (ESvoNeighbor.Front ≠ ESvoNeighbor.Self) ∧
    nodeExistsF c4WitnessForest (0, 0, 0) 1 0 = true ∧
    linkForN c4WitnessForest (0, 0, 0) 1 0 ESvoNeighbor.Front =
      some ⟨(1, 0, 0), 1, 0, SVO_NO_VOXEL⟩ ∧
    (1 ≤ (⟨(1, 0, 0), 1, 0, SVO_NO_VOXEL⟩ : MLink).LayerIdx ∧
      ((⟨(1, 0, 0), 1, 0, SVO_NO_VOXEL⟩ : MLink).LayerIdx = 1 →
        linkForN c4WitnessForest
            (⟨(1, 0, 0), 1, 0, SVO_NO_VOXEL⟩ : MLink).TileCoord 1
            (⟨(1, 0, 0), 1, 0, SVO_NO_VOXEL⟩ : MLink).NodeIdx
            (getOppositeNeighbor ESvoNeighbor.Front) =
          some ⟨(0, 0, 0), 1, 0, SVO_NO_VOXEL⟩)) :=
  ⟨by decide, by decide, by decide,
   linkNeighbor_C4_mutualConsistency c4WitnessForest
     (fun t l i _ h => Bool.noConfusion h)
     (fun t l i c _ h _ => Bool.noConfusion h)
     (0, 0, 0) 1 0 ESvoNeighbor.Front (by decide) (by decide) (by decide) _ (by decide)⟩

/-! ### Raycasting (FSparseVoxelOctree::RaycastTile, C6)

The loop body of `RaycastTile` (SparseVoxelOctree.cpp, lines 777-1077) as one
step function over the loop's mutable state `(CurrentRayT, CurrentRayLocation,
CurNodeLink)`. The ray is exact (`RayStart + RayDir * t` over ℚ); the one
floating-point slab test, `RayAABBIntersect` over the epsilon-inflated node
bounds, is an oracle parameter `slab t link = (bIntersects, NodeMaxT)` — the
step uses its output exactly as the source does (clamping `NodeMaxT` into
`[t + eps, MaxT]`). Everything else (node lookup, states, relative child
coords, Morton codes, the 8×8 sibling-neighbor LUT) is computed from the
model octree. -/

/-- `FSparseVoxelOctree::kRaycastEpsilon` (0.01f, taken exact). -/
def kRaycastEpsilon : ℚ := Rat.divInt 1 100

/-- `FSvoNode::GetParentLink` (`SelfLink.CalculateParent`, invalid for a tile
root). -/
def MLink.calculateParentR (l : MLink) (tileLayerIdx : Nat) : Option MLink :=
  if l.LayerIdx = tileLayerIdx then none
  else some ⟨l.TileCoord, l.LayerIdx + 1, l.NodeIdx / 8, SVO_NO_VOXEL⟩

/-- `FSvoUtils::IsValidMortonCoord` (bounds `SVO_MIN_NODECOORD = 0`,
`SVO_MAX_NODECOORD = 63`). -/
def isValidMortonCoordM (c : IVec3) : Bool :=
  decide (0 ≤ c.1) && decide (c.1 ≤ 63) && decide (0 ≤ c.2.1) &&
    decide (c.2.1 ≤ 63) && decide (0 ≤ c.2.2) && decide (c.2.2 ≤ 63)

/-- `FSvoUtils::AreSiblings`: equal Morton codes after masking the low 3 bits. -/
def areSiblings (a b : Nat) : Bool := a / 8 == b / 8

/-- `FSvoUtils::NodeNeighborLUT[8][8]` (SparseVoxelOctreeUtils.cpp): the
face relationship from a sibling to another sibling (`Self` = none/diagonal). -/
def nodeNeighborLUT : Nat → Nat → ESvoNeighbor
  | 0, 1 => .Front
  | 0, 2 => .Right
  | 0, 4 => .Top
  | 1, 0 => .Back
  | 1, 3 => .Right
  | 1, 5 => .Top
  | 2, 0 => .Left
  | 2, 3 => .Front
  | 2, 6 => .Top
  | 3, 1 => .Left
  | 3, 2 => .Back
  | 3, 7 => .Top
  | 4, 0 => .Bottom
  | 4, 5 => .Front
  | 4, 6 => .Right
  | 5, 1 => .Bottom
  | 5, 4 => .Back
  | 5, 7 => .Right
  | 6, 2 => .Bottom
  | 6, 4 => .Left
  | 6, 7 => .Front
  | 7, 3 => .Bottom
  | 7, 5 => .Left
  | 7, 6 => .Back
  | _, _ => .Self

/-- `FSvoUtils::GetNeighborType` (`NodeNeighborLUT[SiblingIndex][NodeIndex]`). -/
def getNeighborType (nodeIndex siblingIndex : Nat) : ESvoNeighbor :=
  nodeNeighborLUT siblingIndex nodeIndex

/-- `FSvoConfig::LocationToMorton`: the coordinate relative to the tile minimum
at the given resolution, Morton-encoded. -/
def locationToMorton (seed tileMinLocation location : Vec3) (resolution : ℚ) : Nat :=
  let lc := locationToCoord seed location resolution
  let mc := locationToCoord seed tileMinLocation resolution
  coordToMorton ((lc.1 - mc.1).toNat, (lc.2.1 - mc.2.1).toNat, (lc.2.2 - mc.2.2).toNat)

/-- `RayStart + RayDir * t`. -/
def rayAt (rayStart rayDir : Vec3) (t : ℚ) : Vec3 :=
  (qadd rayStart.1 (qmul rayDir.1 t), qadd rayStart.2.1 (qmul rayDir.2.1 t),
   qadd rayStart.2.2 (qmul rayDir.2.2 t))

/-- The loop state of `RaycastTile`: ray parameter, ray location, current node
link (`none` = invalid, which terminates the walk). -/
structure RayState where
  T : ℚ
  Loc : Vec3
  Link : Option MLink
deriving DecidableEq

/-- One iteration's outcome: return without hit, return a hit, or continue
with a new state. -/
inductive RayOutcome where
  | Exit : RayOutcome
  | Hit (hitTime : ℚ) (link : MLink) : RayOutcome
  | Continue (s : RayState) : RayOutcome
deriving DecidableEq

/-- The `AdvanceRay` lambda: clamp the slab exit parameter into
`[t + eps, MaxT]`, move there, and report done (tile/ray exhausted), error
(no intersection), or success. The advanced `t`/location are part of the error
case because the C++ mutates them by reference before returning. -/
def advanceRay (rayStart rayDir : Vec3) (rayLength maxT eps : ℚ)
    (slab : ℚ → MLink → Bool × ℚ) (t : ℚ) (link : MLink) :
    Option (ℚ × Vec3 × Bool) :=
  let r := slab t link
  let tn := qclamp r.2 (qadd t eps) maxT
  let ln := rayAt rayStart rayDir tn
  if tn ≥ maxT then none
  else if tn ≥ rayLength then none
  else some (tn, ln, r.1)

/-- The trailing `if (bAdvanceRay)` block of the loop body: advance past the
current node, then resolve which neighbor (or parent) the ray moved into. -/
def raycastAdvanceBlock (oct : MOctree) (rayStart rayDir : Vec3)
    (rayLength maxT : ℚ) (tileMinLocation : Vec3) (eps : ℚ)
    (slab : ℚ → MLink → Bool × ℚ) (cur : MLink) (node : MNode)
    (nodeLocation : Vec3) (nodeResolution : ℚ) (nodeMortonCode : Nat)
    (t : ℚ) : RayOutcome :=
  match advanceRay rayStart rayDir rayLength maxT eps slab t cur with
  | none => RayOutcome.Exit
  | some (tn, ln, bIntersects) =>
    if bIntersects = false then
      RayOutcome.Continue ⟨tn, ln, cur.calculateParentR oct.TileLayerIdx⟩
    else
      let nodeCoord := locationToCoord oct.Seed nodeLocation nodeResolution
      let neighborCoord := locationToCoord oct.Seed ln nodeResolution
      if neighborCoord = nodeCoord then
        RayOutcome.Continue ⟨tn, ln, cur.calculateParentR oct.TileLayerIdx⟩
      else
        let minTileCoord := locationToCoord oct.Seed tileMinLocation nodeResolution
        let nmc : IVec3 := (neighborCoord.1 - minTileCoord.1,
          neighborCoord.2.1 - minTileCoord.2.1, neighborCoord.2.2 - minTileCoord.2.2)
        if ¬ isValidMortonCoordM nmc then RayOutcome.Exit
        else
          let neighborMortonCode :=
            coordToMorton (nmc.1.toNat, nmc.2.1.toNat, nmc.2.2.toNat)
          let nb0 := getNeighborType (neighborMortonCode % 8) (nodeMortonCode % 8)
          if nb0 ≠ ESvoNeighbor.Self then
            let nb := if areSiblings nodeMortonCode neighborMortonCode then nb0
              else getOppositeNeighbor nb0
            RayOutcome.Continue ⟨tn, ln, node.Neighbors nb⟩
          else RayOutcome.Continue ⟨tn, ln, cur.calculateParentR oct.TileLayerIdx⟩

/-- One iteration of the `while (CurNodeLink.IsValid())` loop of
`RaycastTile`. The `none` arm of the node lookup mirrors an unconditional
pointer dereference (`check(Node)`), unreachable for links produced by the
walk over a well-formed octree. -/
def raycastTileStep (oct : MOctree) (rayStart rayDir : Vec3)
    (rayLength maxT : ℚ) (tileMinLocation : Vec3) (eps : ℚ)
    (slab : ℚ → MLink → Bool × ℚ) (s : RayState) : RayOutcome :=
  match s.Link with
  | none => RayOutcome.Exit
  | some cur0 =>
    if s.T ≥ maxT then RayOutcome.Exit
    else
      match oct.getNodeFromLink cur0 with
      | none => RayOutcome.Exit
      | some node =>
        let nodeState := mnodeState cur0.LayerIdx node
        let nodeLocation := oct.getLocationForLink { cur0 with VoxelIdx := SVO_NO_VOXEL }
        let nodeResolution := oct.resolutionForLayer cur0.LayerIdx
        let nodeMortonCode := cur0.NodeIdx
        if nodeState = ENodeState.Blocked then
          RayOutcome.Hit (qdiv s.T rayLength) cur0
        else if nodeState = ENodeState.PartiallyBlocked then
          if cur0.LayerIdx = SVO_LEAF_LAYER then
            let voxelCoord := oct.getRelativeChildCoord cur0 s.Loc
            let cur1 :=
              if ¬ cur0.IsVoxelNode ∧ isVoxelCoordValid voxelCoord = true then
                { cur0 with VoxelIdx := getVoxelIndexForCoord voxelCoord }
              else cur0
            if cur1.IsVoxelNode then
              if voxelsBlockedAt node.Voxels cur1.VoxelIdx then
                RayOutcome.Hit (qdiv s.T rayLength) cur1
              else
                match advanceRay rayStart rayDir rayLength maxT eps slab s.T cur1 with
                | none => RayOutcome.Exit
                | some (tn, ln, bIntersects) =>
                  if bIntersects = false then
                    RayOutcome.Continue ⟨tn, ln, cur1.calculateParentR oct.TileLayerIdx⟩
                  else
                    let nvc := oct.getRelativeChildCoord cur1 ln
                    if nvc = voxelCoord then
                      RayOutcome.Continue ⟨tn, ln, cur1.calculateParentR oct.TileLayerIdx⟩
                    else if isVoxelCoordValid nvc then
                      RayOutcome.Continue
                        ⟨tn, ln, some { cur1 with VoxelIdx := getVoxelIndexForCoord nvc }⟩
                    else
                      raycastAdvanceBlock oct rayStart rayDir rayLength maxT
                        tileMinLocation eps slab
                        { cur1 with VoxelIdx := SVO_NO_VOXEL } node nodeLocation
                        nodeResolution nodeMortonCode tn
            else
              RayOutcome.Continue ⟨s.T, s.Loc, some cur1⟩
          else
            let childResolution := oct.resolutionForLayer (cur0.LayerIdx - 1)
            let childMortonCode :=
              locationToMorton oct.Seed tileMinLocation s.Loc childResolution
            if childMortonCode / 8 = nodeMortonCode then
              RayOutcome.Continue
                ⟨s.T, s.Loc, some (cur0.calculateChild (childMortonCode % 8))⟩
            else
              RayOutcome.Continue ⟨s.T, s.Loc, cur0.calculateParentR oct.TileLayerIdx⟩
        else
          raycastAdvanceBlock oct rayStart rayDir rayLength maxT tileMinLocation
            eps slab cur0 node nodeLocation nodeResolution nodeMortonCode s.T

/-- A tile whose eight leaves are partially blocked (voxel 0 of each). -/
def c6Tile : MTile :=
  { Coord := (0, 0, 0), RootState := ENodeState.PartiallyBlocked,
    Node := fun l i =>
      if l = 0 ∧ i < 8 then
        some { Active := true, State := ENodeState.PartiallyBlocked, Voxels := 1 }
      else none }

/-- A one-tile octree (tile layer 1, voxel size 1). -/
def c6Octree : MOctree :=
  { Seed := (0, 0, 0), VoxelSize := 1, TileLayerIdx := 1, Tiles := [c6Tile] }

/-- The stalling loop state: the walk is at the partially blocked leaf
`(0,0,0)/layer 0/idx 0` as a plain leaf link (no voxel index yet), but the
current ray location yields an out-of-range relative voxel coordinate — the
case `GetRelativeChildCoord`'s comment leaves to the caller, which this caller
does not handle. -/
def c6State : RayState :=
  ⟨0, (100, 100, 100), some ⟨(0, 0, 0), 0, 0, SVO_NO_VOXEL⟩⟩

/-- C6: the per-tile raycast walk does not always make progress. In the state
`c6State` — a partially blocked leaf reached as a plain leaf link with a ray
location whose relative voxel coordinate is invalid — the loop body neither
returns, descends, ascends, nor advances the ray parameter: it continues with
the state unchanged (`CurNodeLink.VoxelIdx` stays `SVO_NO_VOXEL`, `bAdvanceRay`
stays false), even though the walk has consumed neither the tile's max t nor
the ray length and the epsilon is positive. The loop is deterministic in this
state, so it never terminates, contradicting the claimed guarantee. -/
theorem raycastTile_C6_stall :
    raycastTileStep c6Octree (0, 0, 0) (1, 0, 0) 10 10 (0, 0, 0) kRaycastEpsilon
        (fun _ _ => (true, 0)) c6State = RayOutcome.Continue c6State ∧
    c6State.T < 10 ∧ 0 < kRaycastEpsilon := by
  refine ⟨?_, by decide, by decide⟩
  decide
